import Mathlib

/-!
# CameraDeviceAtomIsp: a shallow embedding of the capture-device driver

The definitions below follow `src/CameraDeviceAtomIsp.cpp` function by function.
The object's members become the fields of `Device`; every member function becomes a
function that takes the device (and the outcomes of the external calls it makes) and
returns the device afterwards together with the C++ return value.

Conventions.
* `int` results of the V4L2 wrappers are `Int`; `if (ret)` is `ret ≠ 0`.
* `uint32_t` members are `Nat`; products that the code computes in `uint32_t` carry an
  explicit `% 2 ^ 32`, `size_t` arithmetic an explicit `% 2 ^ 64`.
* Pointers are `Nat` addresses, `0` being the null pointer.
* The calls a function makes to the kernel interface and to the allocator are appended to
  the ghost field `calls`, so that "makes no driver call" can be stated.
-/

namespace CameraDeviceAtomIsp

/-! ## Data model -/

/-- Modelled from the spec: the lifecycle states `STATE_ERROR`, `STATE_IDLE`, `STATE_INIT`,
`STATE_RUN` are enumerators of `CameraDevice.h`, which is not part of the sources at hand.
The code only compares them for equality, so they are embedded as an enumeration. -/
inductive State where
  | STATE_ERROR
  | STATE_IDLE
  | STATE_INIT
  | STATE_RUN
  deriving DecidableEq, Repr

open State

/-- The enumerators of `CameraDevice::PixelFormat` that the code names.  Their numeric
values are declared in the header `CameraDevice.h`, which is not part of the sources at
hand, so they are parameters of the model. -/
structure PixelFormats where
  PIXEL_FORMAT_MIN : Int
  PIXEL_FORMAT_GREY : Int
  PIXEL_FORMAT_UYVY : Int
  PIXEL_FORMAT_MAX : Int
  deriving DecidableEq, Repr

/-- External calls made by the device, in the order they are issued (ghost trace). -/
inductive Call where
  | v4l2_open (path : String)
  | v4l2_close (fd : Int)
  | v4l2_set_input (fd : Int) (index : Int)
  | v4l2_query_cap (fd : Int)
  | v4l2_set_capturemode (fd : Int) (mode : Nat)
  | v4l2_set_pixformat (fd : Int) (width height : Nat)
  | v4l2_buf_req (fd : Int) (count : Nat)
  | v4l2_buf_q (fd : Int) (index : Nat) (userptr : Nat) (length : Nat)
  | v4l2_buf_dq (fd : Int)
  | v4l2_streamon (fd : Int)
  | v4l2_streamoff (fd : Int)
  | select (fd : Int)
  | memalign (alignment : Nat) (size : Nat)
  | free (ptr : Nat)
  | sleep (seconds : Nat)
  deriving DecidableEq, Repr

/-- The members of `CameraDeviceAtomIsp`.  `mFrmBuf` is `none` for a null container and
otherwise the array of slot addresses; `mOutBuf` is `none` for `nullptr` and otherwise the
capacity in bytes of the scratch buffer.  The class declaration is in the header
`CameraDeviceAtomIsp.h`, which is not part of the sources at hand; widths, heights and the
buffer count are taken to be `uint32_t`, the type `setSize` and `getSize` use for them. -/
structure Device where
  mDeviceId : String
  mWidth : Nat
  mHeight : Nat
  mPixelFormat : Int
  mOutWidth : Nat
  mOutHeight : Nat
  mOutPixelFormat : Int
  mState : State
  mBufCnt : Nat
  mFd : Int
  mFrmBuf : Option (List Nat)
  mBufLen : Nat
  mOutBuf : Option Nat
  calls : List Call
  deriving DecidableEq, Repr

def DEFAULT_WIDTH : Nat := 640
def DEFAULT_HEIGHT : Nat := 480
def DEFAULT_BUFFER_COUNT : Nat := 4

/-- The constructor.  The members it leaves uninitialised (`mFd`, `mFrmBuf`, `mBufLen`)
start as `-1`, null and `0`. -/
def new (K : PixelFormats) (device : String) : Device :=
  { mDeviceId := device
    mWidth := DEFAULT_WIDTH
    mHeight := DEFAULT_HEIGHT
    mPixelFormat := K.PIXEL_FORMAT_UYVY
    mOutWidth := DEFAULT_WIDTH
    mOutHeight := DEFAULT_HEIGHT
    mOutPixelFormat := K.PIXEL_FORMAT_UYVY
    mState := STATE_IDLE
    mBufCnt := DEFAULT_BUFFER_COUNT
    mFd := -1
    mFrmBuf := none
    mBufLen := 0
    mOutBuf := none
    calls := [] }

/-- Append one external call to the trace. -/
def Device.log (d : Device) (c : Call) : Device :=
  { d with calls := d.calls ++ [c] }

/-! ## Lifecycle state machine -/

def getState (d : Device) : State := d.mState

/-- Function `setState`: the `switch` on the current state, followed by the final comparison. -/
def setState (d : Device) (state : State) : Device × Int :=
  if d.mState = state then (d, 0)
  else if state = STATE_ERROR then ({ d with mState := state }, 0)
  else
    let d1 : Device :=
      match d.mState with
      | STATE_IDLE => if state = STATE_INIT then { d with mState := state } else d
      | STATE_INIT =>
        if state = STATE_IDLE ∨ state = STATE_RUN then { d with mState := state } else d
      | STATE_RUN => if state = STATE_INIT then { d with mState := state } else d
      | STATE_ERROR => d
    if d1.mState ≠ state then (d1, -1) else (d1, 0)

/-- The transition table as the specification words it:
Idle→{Initialized}; Initialized→{Idle, Running}; Running→{Initialized}; Error→{}. -/
def specTransitionTable : State → List State
  | STATE_IDLE => [STATE_INIT]
  | STATE_INIT => [STATE_IDLE, STATE_RUN]
  | STATE_RUN => [STATE_INIT]
  | STATE_ERROR => []

/-! ## Buffer pool -/

/-- The slot `mFrmBuf[i]`.  Reading a slot of a null or shorter container is undefined in
C++; the model reads the null address there. -/
def slot (d : Device) (i : Nat) : Nat :=
  (d.mFrmBuf.getD []).getD i 0

/-- The `for` loop of `freeFrameBuffer`, `n` iterations from index `i`. -/
def freeLoop : Nat → Nat → Device → Device
  | 0, _, d => d
  | n + 1, i, d => freeLoop n (i + 1) (d.log (Call.free (slot d i)))

/-- Function `freeFrameBuffer`.  The loop counter is a `uint8_t` compared with `mBufCnt`; the model
runs `mBufCnt` iterations, which is what the code does for `mBufCnt ≤ 255`. -/
def freeFrameBuffer (d : Device) : Device × Int :=
  match d.mFrmBuf with
  | none => (d, 0)
  | some _ =>
    let d1 := freeLoop d.mBufCnt 0 d
    ({ d1 with mFrmBuf := none }, 0)

/-- Function `uninit`: an Idle device is left alone; otherwise the descriptor is closed,
the pool freed and `setState(STATE_IDLE)` attempted, its result being discarded. -/
def uninit (d : Device) : Device × Int :=
  if getState d = STATE_IDLE then (d, 0)
  else
    let d1 := d.log (Call.v4l2_close d.mFd)
    let d2 : Device := { d1 with mFd := -1 }
    let d3 := (freeFrameBuffer d2).1
    let d4 := (setState d3 STATE_IDLE).1
    (d4, 0)

/-- Outcomes of the allocator calls made by `allocFrameBuffer`: the page size, and the
address returned by the `memalign` call for slot `i` (`0` when that allocation fails). -/
structure AllocEnv where
  getpagesize : Nat
  memalign : Nat → Nat

/-- The expression `(bufSize + pageSize - 1) & ~(pageSize - 1)` of `allocFrameBuffer`,
evaluated in the 64-bit `size_t`: `pageSize` is an `int`, so `~(pageSize - 1)` is the
`int` value `-pageSize`, which converts to `2 ^ 64 - pageSize`. -/
def bufLen (bufSize pageSize : Nat) : Nat :=
  ((bufSize + pageSize + (2 ^ 64 - 1)) % 2 ^ 64) &&& ((2 ^ 64 - pageSize % 2 ^ 64) % 2 ^ 64)

/-- The assignment `mFrmBuf[i] = p`. -/
def setSlot (d : Device) (i : Nat) (p : Nat) : Device :=
  { d with mFrmBuf := d.mFrmBuf.map (fun slots => slots.set i p) }

/-- The inner loop `while (i) { i--; free(mFrmBuf[i]); mFrmBuf[i] = NULL; }`. -/
def unwindLoop : Nat → Device → Device
  | 0, d => d
  | i + 1, d => unwindLoop i (setSlot (d.log (Call.free (slot d i))) i 0)

/-- The `for` loop of `allocFrameBuffer` with `n` iterations left, at index `i`, carrying
the device and the local `ret`.  A failed `memalign` runs the inner loop and breaks. -/
def allocLoop (env : AllocEnv) (len : Nat) : Nat → Nat → Device × Int → Device × Int
  | 0, _, s => s
  | n + 1, i, (d, ret) =>
    let p := env.memalign i
    let d1 := setSlot (d.log (Call.memalign env.getpagesize len)) i p
    if p = 0 then (unwindLoop i d1, ret)
    else allocLoop env len n (i + 1) (d1, 0)

/-- Function `allocFrameBuffer(int bufCnt, size_t bufSize)`.  The `calloc` of the slot array is
taken to succeed for a positive count (the code does not test it); for a negative count
its size overflows and it yields null, and the loop body never runs. -/
def allocFrameBuffer (env : AllocEnv) (d : Device) (bufCnt : Int) (bufSize : Nat) :
    Device × Int :=
  if bufCnt = 0 ∨ bufSize = 0 then (d, -1)
  else
    let len := bufLen bufSize env.getpagesize
    let d1 : Device :=
      { d with mFrmBuf := if bufCnt < 0 then none else some (List.replicate bufCnt.toNat 0) }
    let r := allocLoop env len bufCnt.toNat 0 (d1, -1)
    ({ r.1 with mBufLen := len }, r.2)

/-- Conversion of a `uint32_t` value to `int`. -/
def toInt32 (n : Nat) : Int :=
  if n % 2 ^ 32 < 2 ^ 31 then ((n % 2 ^ 32 : Nat) : Int) else ((n % 2 ^ 32 : Nat) : Int) - 2 ^ 32

/-! ## init / start / stop -/

/-- Outcomes of the external calls of `init`, in program order. -/
structure InitEnv where
  v4l2_open : Int
  v4l2_set_input : Int
  v4l2_query_cap : Int
  v4l2_set_capturemode : Int
  v4l2_set_pixformat : Int
  alloc : AllocEnv

/-- The `error:` label of `init`: close the descriptor and return `ret`. -/
def initError (d : Device) (ret : Int) : Device × Int :=
  (d.log (Call.v4l2_close d.mFd), ret)

/-- Function `init`.  `mWidth * mHeight * 2` is a `uint32_t` product. -/
def init (env : InitEnv) (d : Device) : Device × Int :=
  if getState d ≠ STATE_IDLE then (d, -1)
  else
    let d1 : Device := { d.log (Call.v4l2_open d.mDeviceId) with mFd := env.v4l2_open }
    if d1.mFd < 0 then (d1, -1)
    else
      let d2 := d1.log (Call.v4l2_set_input d1.mFd 1)
      if env.v4l2_set_input ≠ 0 then initError d2 env.v4l2_set_input
      else
        let d3 := d2.log (Call.v4l2_query_cap d2.mFd)
        if env.v4l2_query_cap ≠ 0 then initError d3 env.v4l2_query_cap
        else
          let d4 := d3.log (Call.v4l2_set_capturemode d3.mFd 0x8000)
          if env.v4l2_set_capturemode ≠ 0 then initError d4 env.v4l2_set_capturemode
          else
            let d5 := d4.log (Call.v4l2_set_pixformat d4.mFd d4.mWidth d4.mHeight)
            if env.v4l2_set_pixformat ≠ 0 then initError d5 env.v4l2_set_pixformat
            else
              let r := allocFrameBuffer env.alloc d5 (toInt32 d5.mBufCnt)
                (d5.mWidth * d5.mHeight * 2 % 2 ^ 32)
              if r.2 ≠ 0 then initError r.1 r.2
              else ((setState r.1 STATE_INIT).1, 0)

/-- Outcomes of the driver calls of `start`; `v4l2_buf_q i` is the result of enqueuing
buffer `i`. -/
structure StartEnv where
  v4l2_buf_req : Int
  v4l2_buf_q : Nat → Int
  v4l2_streamon : Int

/-- The enqueue loop of `start`, `n` iterations left at index `i`; a non-zero second
component is the value returned early from inside the loop. -/
def enqueueLoop (env : StartEnv) : Nat → Nat → Device → Device × Int
  | 0, _, d => (d, 0)
  | n + 1, i, d =>
    let d1 := d.log (Call.v4l2_buf_q d.mFd i (slot d i) (d.mBufLen % 2 ^ 32))
    if env.v4l2_buf_q i ≠ 0 then (d1, env.v4l2_buf_q i)
    else enqueueLoop env n (i + 1) d1

/-- Function `start`: buffer request, the four enqueues, stream-on, then the transition
to Running and the settle delay. -/
def start (env : StartEnv) (d : Device) : Device × Int :=
  if getState d ≠ STATE_INIT then (d, -1)
  else
    let d1 := d.log (Call.v4l2_buf_req d.mFd 4)
    if env.v4l2_buf_req ≠ 0 then (d1, env.v4l2_buf_req)
    else
      let r := enqueueLoop env 4 0 d1
      if r.2 ≠ 0 then r
      else
        let d3 := r.1.log (Call.v4l2_streamon r.1.mFd)
        if env.v4l2_streamon ≠ 0 then (d3, env.v4l2_streamon)
        else
          let d4 := (setState d3 STATE_RUN).1
          (d4.log (Call.sleep 2), env.v4l2_streamon)

/-- Function `stop`.  The result of `v4l2_streamoff` is discarded by the code. -/
def stop (d : Device) : Device × Int :=
  if getState d ≠ STATE_RUN then (d, -1)
  else ((setState (d.log (Call.v4l2_streamoff d.mFd)) STATE_INIT).1, 0)

/-! ## Output size and pixel format -/

/-- Function `setSize(uint32_t width, uint32_t height)`. -/
def setSize (d : Device) (width height : Nat) : Device × Int :=
  if width = 0 ∨ height = 0 then (d, 1)
  else if getState d = STATE_RUN then (d, 1)
  else ({ d with mOutWidth := width, mOutHeight := height }, 0)

/-- Function `getSize`: the two reference parameters after the call, and the return value. -/
def getSize (d : Device) : (Nat × Nat) × Int :=
  ((d.mOutWidth, d.mOutHeight), 0)

/-- Function `setPixelFormat`. -/
def setPixelFormat (K : PixelFormats) (d : Device) (format : Int) : Device × Int :=
  if format ≤ K.PIXEL_FORMAT_MIN ∨ format ≥ K.PIXEL_FORMAT_MAX then (d, 1)
  else if getState d = STATE_RUN then (d, 1)
  else ({ d with mOutPixelFormat := format }, 0)

/-! ## Format transform -/

/-- The loop `for (i = 0; i < n; i++) body`, started at index `i`. -/
def forLoop {σ : Type} (body : Nat → σ → σ) : Nat → Nat → σ → σ
  | 0, _, s => s
  | n + 1, i, s => forLoop body n (i + 1) (body i s)

/-- Function `uyvy2mono8`.  `UYVY` is the source buffer indexed by byte offset, `MONO` the
destination memory; the result is the destination after the call and the final value of
the write index `k`.  The `int` arithmetic is done in unbounded integers, which is what
the code computes whenever no `int` overflows. -/
def uyvy2mono8 (UYVY : Int → Nat) (MONO : Nat → Nat) (width height stride : Int) :
    (Nat → Nat) × Nat :=
  forLoop
    (fun j s =>
      forLoop
        (fun i (s : (Nat → Nat) × Nat) =>
          (Function.update s.1 s.2 (UYVY ((j : Int) * 2 * stride + 2 * (i : Int) + 1)), s.2 + 1))
        width.toNat 0 s)
    height.toNat 0 (MONO, 0)

/-- Function `transform`: the destination memory after the call. -/
def transform (K : PixelFormats) (d : Device) (input : Int → Nat) (output : Nat → Nat) :
    Nat → Nat :=
  if d.mPixelFormat = K.PIXEL_FORMAT_UYVY ∧ d.mOutPixelFormat = K.PIXEL_FORMAT_GREY then
    (uyvy2mono8 input output (toInt32 d.mOutWidth) (toInt32 d.mOutHeight) (toInt32 d.mWidth)).1
  else output

/-! ## Frame acquisition -/

/-- What `frame.buf` points at: nothing, the hardware buffer at a given address, or the
device's scratch buffer `mOutBuf`. -/
inductive BufRef where
  | null
  | userptr (addr : Nat)
  | scratch
  deriving DecidableEq, Repr

/-- Modelled from the spec: the `CameraFrame` record that `read` fills in (width, height,
pixel format, stride, buffer reference, byte size); its declaration is in the header
`CameraDevice.h`, which is not part of the sources at hand. -/
structure CameraFrame where
  width : Nat
  height : Nat
  pixFmt : Int
  stride : Nat
  buf : BufRef
  bufSize : Nat
  deriving DecidableEq, Repr

/-- Outcomes of one iteration of the loop of `pollCamera`: the value returned by `select`,
whether `errno` is `EINTR` after it, and the outcomes of the `init` and `start` calls made
if this iteration restarts the device. -/
structure PollEnv where
  select : Int
  errnoIsEINTR : Bool
  initEnv : InitEnv
  startEnv : StartEnv

/-- The timeout branch of `pollCamera`: `stop(); uninit(); init(); start();`, every
return value being discarded. -/
def restart (e : PollEnv) (d : Device) : Device :=
  let d1 := (stop d).1
  let d2 := (uninit d1).1
  let d3 := (init e.initEnv d2).1
  (start e.startEnv d3).1

/-- Function `pollCamera(int fd)`: at most `fuel` iterations of the `while (mState == STATE_RUN)`
loop, iteration `n` taking its outcomes from `polls n`.  The second component is the value
returned, or `none` when the loop is still running after `fuel` iterations.  The local
`ret` is `-1` whenever the loop is left through its condition. -/
def pollCamera (polls : Nat → PollEnv) (fd : Int) : Nat → Nat → Device → Device × Option Int
  | 0, _, d => if d.mState = STATE_RUN then (d, none) else (d, some (-1))
  | fuel + 1, n, d =>
    if d.mState = STATE_RUN then
      let d1 := d.log (Call.select fd)
      if (polls n).select = -1 then
        if (polls n).errnoIsEINTR then pollCamera polls fd fuel (n + 1) d1
        else (d1, some (-1))
      else if (polls n).select = 0 then
        pollCamera polls fd fuel (n + 1) (restart (polls n) d1)
      else (d1, some 0)
    else (d, some (-1))

/-- Outcomes of the external calls of `read`: the iterations of the poll loop, the result
of the dequeue together with the fields of the `v4l2_buffer` it fills in, the bytes of the
dequeued buffer, and the result of the final enqueue. -/
structure ReadEnv where
  polls : Nat → PollEnv
  v4l2_buf_dq : Int
  index : Nat
  userptr : Nat
  length : Nat
  bytesused : Nat
  data : Int → Nat
  v4l2_buf_q : Int

/-- What a call of `read` leaves behind: the device, the caller's frame, the bytes of the
scratch buffer, and the value returned (`none` when the poll loop has not returned). -/
structure ReadResult where
  device : Device
  frame : CameraFrame
  scratch : Nat → Nat
  ret : Option Int

/-- The test `(mOutPixelFormat != mPixelFormat) || (mWidth != mOutWidth ||
mHeight != mOutHeight)` that selects the conversion path of `read`. -/
def needsConversion (d : Device) : Bool :=
  decide (d.mOutPixelFormat ≠ d.mPixelFormat ∨ d.mWidth ≠ d.mOutWidth ∨ d.mHeight ≠ d.mOutHeight)

/-- The statement `if (!mOutBuf) mOutBuf = new uint8_t[n]`; the allocation is taken to
succeed. -/
def allocOutBuf (d : Device) (n : Nat) : Device :=
  match d.mOutBuf with
  | none => { d with mOutBuf := some n }
  | some _ => d

/-- The `switch (mOutPixelFormat)` of the conversion path of `read`: lazy allocation of
the scratch buffer and the stride and byte size of the frame.  The products are computed
in `uint32_t`. -/
def readSwitch (K : PixelFormats) (d : Device) (frame : CameraFrame) : Device × CameraFrame :=
  if d.mOutPixelFormat = K.PIXEL_FORMAT_GREY then
    (allocOutBuf d (d.mOutWidth * d.mOutHeight % 2 ^ 32),
     { frame with stride := d.mOutWidth, bufSize := d.mOutWidth * d.mOutHeight % 2 ^ 32 })
  else if d.mOutPixelFormat = K.PIXEL_FORMAT_UYVY then
    (allocOutBuf d (2 * d.mOutWidth * d.mOutHeight % 2 ^ 32),
     { frame with stride := 2 * d.mOutWidth % 2 ^ 32,
                  bufSize := 2 * d.mOutWidth * d.mOutHeight % 2 ^ 32 })
  else (d, frame)

/-- Function `read`.  `frame` is the caller's frame before the call and `scratch` the
bytes at `mOutBuf` before the call (arbitrary when the buffer is allocated by this call).
The mutex is not modelled. -/
def read (K : PixelFormats) (env : ReadEnv) (fuel : Nat) (d : Device) (frame : CameraFrame)
    (scratch : Nat → Nat) : ReadResult :=
  if getState d ≠ STATE_RUN then ⟨d, frame, scratch, some (-1)⟩
  else
    let p := pollCamera env.polls d.mFd fuel 0 d
    match p.2 with
    | none => ⟨p.1, frame, scratch, none⟩
    | some r =>
      if r ≠ 0 then ⟨p.1, frame, scratch, some (-1)⟩
      else
        let d2 := p.1.log (Call.v4l2_buf_dq p.1.mFd)
        if env.v4l2_buf_dq ≠ 0 then ⟨d2, frame, scratch, some env.v4l2_buf_dq⟩
        else if env.userptr = 0 then ⟨d2, frame, scratch, some (-1)⟩
        else
          let c : ReadResult :=
            if needsConversion d2 then
              let sw := readSwitch K d2 frame
              { device := sw.1
                frame :=
                  { sw.2 with
                    pixFmt := sw.1.mOutPixelFormat
                    width := sw.1.mOutWidth
                    height := sw.1.mOutHeight
                    buf := if sw.1.mOutBuf = none then BufRef.null else BufRef.scratch }
                scratch := transform K sw.1 env.data scratch
                ret := some 0 }
            else
              { device := d2
                frame :=
                  { width := d2.mWidth
                    height := d2.mHeight
                    pixFmt := d2.mPixelFormat
                    buf := BufRef.userptr env.userptr
                    bufSize := env.bytesused
                    stride := d2.mWidth * 2 % 2 ^ 32 }
                scratch := scratch
                ret := some 0 }
          let d3 := c.device.log (Call.v4l2_buf_q c.device.mFd env.index env.userptr env.length)
          if env.v4l2_buf_q ≠ 0 then { c with device := d3, ret := some env.v4l2_buf_q }
          else { c with device := d3, ret := some 0 }

/-- Function `getPixelFormat`: the enumerator `mPixelFormat` converted to the `uint32_t`
reference parameter, and the return value. -/
def getPixelFormat (d : Device) : Nat × Int :=
  ((d.mPixelFormat % 2 ^ 32).toNat, 0)

/-! ## Sequences of public calls -/

/-- One call of a public operation, with the outcomes of the external calls it makes. -/
inductive Op where
  | init (env : InitEnv)
  | uninit
  | start (env : StartEnv)
  | stop
  | read (env : ReadEnv) (fuel : Nat)
  | setSize (width height : Nat)
  | setPixelFormat (format : Int)

/-- The device after one public call, and whether the call has returned (a `read` whose
poll loop is still running has not). -/
def step (K : PixelFormats) (d : Device) : Op → Device × Bool
  | Op.init env => ((init env d).1, true)
  | Op.uninit => ((uninit d).1, true)
  | Op.start env => ((start env d).1, true)
  | Op.stop => ((stop d).1, true)
  | Op.read env fuel =>
    let r := read K env fuel d ⟨0, 0, 0, 0, BufRef.null, 0⟩ (fun _ => 0)
    (r.device, r.ret.isSome)
  | Op.setSize w h => ((setSize d w h).1, true)
  | Op.setPixelFormat f => ((setPixelFormat K d f).1, true)

/-- The device after a sequence of public calls made one after the other; the sequence
ends early at a call that does not return. -/
def run (K : PixelFormats) : Device → List Op → Device
  | d, [] => d
  | d, op :: ops =>
    let r := step K d op
    if r.2 then run K r.1 ops else r.1

/-- The members that no lifecycle operation assigns: identity, native and output geometry
and formats, buffer count and the scratch buffer. -/
def Device.settings (d : Device) :
    String × Nat × Nat × Int × Nat × Nat × Int × Nat × Option Nat :=
  (d.mDeviceId, d.mWidth, d.mHeight, d.mPixelFormat, d.mOutWidth, d.mOutHeight,
    d.mOutPixelFormat, d.mBufCnt, d.mOutBuf)

/-- Every external call of `init` succeeds: a valid descriptor, zero status from every
driver call, a non-null address from every allocation. -/
def InitEnv.allOk (e : InitEnv) : Prop :=
  0 ≤ e.v4l2_open ∧ e.v4l2_set_input = 0 ∧ e.v4l2_query_cap = 0 ∧
  e.v4l2_set_capturemode = 0 ∧ e.v4l2_set_pixformat = 0 ∧ ∀ i, e.alloc.memalign i ≠ 0

/-- Every driver call of `start` succeeds. -/
def StartEnv.allOk (e : StartEnv) : Prop :=
  e.v4l2_buf_req = 0 ∧ (∀ i, e.v4l2_buf_q i = 0) ∧ e.v4l2_streamon = 0

/-- The byte size the specification requires of the scratch buffer for the current output
format and dimensions: `W * H` for monochrome, `2 * W * H` for packed 4:2:2 (and nothing
for a format it names no size for). -/
def scratchRequired (K : PixelFormats) (d : Device) : Nat :=
  if d.mOutPixelFormat = K.PIXEL_FORMAT_GREY then d.mOutWidth * d.mOutHeight
  else if d.mOutPixelFormat = K.PIXEL_FORMAT_UYVY then 2 * d.mOutWidth * d.mOutHeight
  else 0

/-! ## Sample inputs -/

/-- One assignment of enumerator values, used for concrete evaluations. -/
def sampleFormats : PixelFormats :=
  { PIXEL_FORMAT_MIN := 0, PIXEL_FORMAT_GREY := 1, PIXEL_FORMAT_UYVY := 4, PIXEL_FORMAT_MAX := 7 }

/-- A freshly constructed device put in the given state. -/
def deviceIn (s : State) : Device :=
  { new sampleFormats "/dev/video2" with mState := s }

/-- A device as `init` leaves it on a machine with 4096-byte pages: descriptor 3 and a
pool of four buffers. -/
def initializedDevice : Device :=
  { new sampleFormats "/dev/video2" with
    mState := STATE_INIT, mFd := 3, mBufLen := 614400,
    mFrmBuf := some [4096, 622592, 1241088, 1859584] }

/-- Driver outcomes for `start` in which every call succeeds. -/
def startAllOk : StartEnv :=
  { v4l2_buf_req := 0, v4l2_buf_q := fun _ => 0, v4l2_streamon := 0 }

/-- Allocator outcomes on a machine with 4096-byte pages where the `memalign` call for
slot `k` fails and every other one returns a fresh address. -/
def allocFailingAt (k : Nat) : AllocEnv :=
  { getpagesize := 4096, memalign := fun i => if i = k then 0 else 4096 + i * 618496 }

/-- Outcomes for `init` in which every driver call succeeds (descriptor 3) and the
allocator behaves as `allocFailingAt k`. -/
def initAllocFailingAt (k : Nat) : InitEnv :=
  { v4l2_open := 3, v4l2_set_input := 0, v4l2_query_cap := 0, v4l2_set_capturemode := 0,
    v4l2_set_pixformat := 0, alloc := allocFailingAt k }

/-- A packed 4:2:2 source of stride 4, given by byte offset: pixel `(i, j)` has luma
`10 * j + i + 1` (odd offsets), every chroma byte (even offsets) is `255`. -/
def lumaPattern (off : Int) : Nat :=
  if off % 2 = 1 then (10 * ((off / 2) / 4) + (off / 2) % 4 + 1).toNat else 255

/-- Allocator outcomes on a machine with 4096-byte pages where every allocation returns a
fresh address. -/
def allocAllOk : AllocEnv :=
  { getpagesize := 4096, memalign := fun i => 4096 + i * 618496 }

/-- Outcomes for `init` in which every call succeeds (descriptor 3). -/
def initAllOk : InitEnv :=
  { v4l2_open := 3, v4l2_set_input := 0, v4l2_query_cap := 0, v4l2_set_capturemode := 0,
    v4l2_set_pixformat := 0, alloc := allocAllOk }

/-- A streaming device: `initializedDevice` in state Running. -/
def runningDevice : Device :=
  { initializedDevice with mState := STATE_RUN }

/-- A poll iteration in which `select` reports the descriptor readable. -/
def pollReady : PollEnv :=
  { select := 1, errnoIsEINTR := false, initEnv := initAllOk, startEnv := startAllOk }

/-- A poll iteration in which `select` times out and the restart that follows succeeds. -/
def pollTimeout : PollEnv :=
  { select := 0, errnoIsEINTR := false, initEnv := initAllOk, startEnv := startAllOk }

/-- A poll iteration in which `select` times out and the stream-on of the restart fails. -/
def pollTimeoutStreamonFails : PollEnv :=
  { pollTimeout with startEnv := { startAllOk with v4l2_streamon := -1 } }

/-- Outcomes for `read` with the given poll iterations, in which the dequeue hands back the
buffer at address 4096 holding `lumaPattern` and the final enqueue succeeds. -/
def readOk (polls : Nat → PollEnv) : ReadEnv :=
  { polls := polls, v4l2_buf_dq := 0, index := 0, userptr := 4096, length := 614400,
    bytesused := 614400, data := lumaPattern, v4l2_buf_q := 0 }

/-- A frame record as the caller holds it before `read`. -/
def blankFrame : CameraFrame :=
  { width := 0, height := 0, pixFmt := 0, stride := 0, buf := BufRef.null, bufSize := 0 }

/-- A sequence of public calls in which the output size is enlarged between two reads
while the device is not Running: `init`, `setPixelFormat(GREY)`, `setSize(2, 2)`, `start`,
`read`, `stop`, `setSize(4, 2)`, `start`; every external call succeeds. -/
def resizeBetweenReads : List Op :=
  [Op.init initAllOk, Op.setPixelFormat 1, Op.setSize 2 2, Op.start startAllOk,
   Op.read (readOk (fun _ => pollReady)) 1, Op.stop, Op.setSize 4 2, Op.start startAllOk]

/-- Outcomes for a `read` whose first poll is ready and whose dequeued buffer holds the
byte 200 at every offset. -/
def readConstant : ReadEnv :=
  { readOk (fun _ => pollReady) with data := fun _ => 200 }

/-! ## Lifecycle: theorems -/

/-- C1, as stated, fails: from Idle the target Error differs from the current state and is
not in the table, yet `setState` returns 0 and the state becomes Error. -/
theorem setState_error_target_accepted :
    STATE_ERROR ≠ (deviceIn STATE_IDLE).mState ∧
    STATE_ERROR ∉ specTransitionTable (deviceIn STATE_IDLE).mState ∧
    (setState (deviceIn STATE_IDLE) STATE_ERROR).2 = 0 ∧
    (setState (deviceIn STATE_IDLE) STATE_ERROR).1.mState = STATE_ERROR := by
  decide

/-- C1 (amended): for every current state and every target `t` different from it that is
not listed for it in the transition table, `setState t` returns `-1` and leaves the device
unchanged provided `t` is not Error; the target Error is accepted from every other state
(returns `0`, state becomes Error). -/
theorem setState_unlisted_target (d : Device) (t : State)
    (hne : t ≠ d.mState) (hnot : t ∉ specTransitionTable d.mState) :
    (t ≠ STATE_ERROR → setState d t = (d, -1)) ∧
    (t = STATE_ERROR → setState d t = ({ d with mState := STATE_ERROR }, 0)) := by
  obtain ⟨id, w, h, pf, ow, oh, opf, st, cnt, fd, frm, len, out, calls⟩ := d
  cases st <;> cases t <;> simp_all [setState, specTransitionTable]

/-- The amended C1 at concrete inputs: Running to Idle is refused, Running to Error is
accepted. -/
theorem setState_unlisted_target_witness :
    (STATE_IDLE ≠ (deviceIn STATE_RUN).mState ∧
      STATE_IDLE ∉ specTransitionTable (deviceIn STATE_RUN).mState ∧
      setState (deviceIn STATE_RUN) STATE_IDLE = (deviceIn STATE_RUN, -1)) ∧
    setState (deviceIn STATE_RUN) STATE_ERROR
      = ({ deviceIn STATE_RUN with mState := STATE_ERROR }, 0) :=
  ⟨⟨by decide, by decide,
    (setState_unlisted_target (deviceIn STATE_RUN) STATE_IDLE (by decide) (by decide)).1
      (by decide)⟩,
   (setState_unlisted_target (deviceIn STATE_RUN) STATE_ERROR (by decide) (by decide)).2 rfl⟩

/-- Logging a call only touches the trace. -/
theorem log_mState (d : Device) (c : Call) : (d.log c).mState = d.mState := rfl

theorem freeLoop_mState (n i : Nat) (d : Device) : (freeLoop n i d).mState = d.mState := by
  induction n generalizing i d with
  | zero => rfl
  | succ n ih => simp [freeLoop, ih, log_mState]

theorem freeFrameBuffer_mState (d : Device) : (freeFrameBuffer d).1.mState = d.mState := by
  unfold freeFrameBuffer
  cases d.mFrmBuf <;> simp [freeLoop_mState]

/-- The state after `uninit`, in terms of the state before. -/
theorem uninit_mState (d : Device) :
    (uninit d).1.mState =
      if d.mState = STATE_INIT then STATE_IDLE else d.mState := by
  unfold uninit getState
  by_cases h : d.mState = STATE_IDLE
  · simp [h]
  · simp only [h, if_false]
    have hs : (freeFrameBuffer { d.log (Call.v4l2_close d.mFd) with mFd := -1 }).1.mState
        = d.mState := by
      rw [freeFrameBuffer_mState]; rfl
    generalize (freeFrameBuffer { d.log (Call.v4l2_close d.mFd) with mFd := -1 }).1 = e at hs
    cases hd : d.mState <;> simp_all [setState]

theorem uninit_ret (d : Device) : (uninit d).2 = 0 := by
  unfold uninit
  split <;> rfl

/-- C2 does not hold of the code on a Running device.  A freshly constructed device is
taken through `init` and `start` with every external call succeeding, which leaves it
Running; `uninit` then returns success, closes the descriptor (`mFd = -1`) and releases the
pool, and its closing `setState(STATE_IDLE)` is refused by the transition gate with the
refusal discarded: the state is still Running, not Idle.  A second `uninit` right after it
returns success again and the state is still Running. -/
theorem uninit_running_stays_running :
    (run sampleFormats (new sampleFormats "/dev/video2")
      [Op.init initAllOk, Op.start startAllOk]).mState = STATE_RUN ∧
    (uninit (run sampleFormats (new sampleFormats "/dev/video2")
      [Op.init initAllOk, Op.start startAllOk])).2 = 0 ∧
    (uninit (run sampleFormats (new sampleFormats "/dev/video2")
      [Op.init initAllOk, Op.start startAllOk])).1.mState = STATE_RUN ∧
    (uninit (run sampleFormats (new sampleFormats "/dev/video2")
      [Op.init initAllOk, Op.start startAllOk])).1.mFd = -1 ∧
    (uninit (run sampleFormats (new sampleFormats "/dev/video2")
      [Op.init initAllOk, Op.start startAllOk])).1.mFrmBuf = none ∧
    (setState (run sampleFormats (new sampleFormats "/dev/video2")
      [Op.init initAllOk, Op.start startAllOk]) STATE_IDLE).2 = -1 ∧
    (uninit (uninit (run sampleFormats (new sampleFormats "/dev/video2")
      [Op.init initAllOk, Op.start startAllOk])).1).2 = 0 ∧
    (uninit (uninit (run sampleFormats (new sampleFormats "/dev/video2")
      [Op.init initAllOk, Op.start startAllOk])).1).1.mState = STATE_RUN ∧
    (run sampleFormats (new sampleFormats "/dev/video2")
      [Op.init initAllOk, Op.start startAllOk, Op.uninit, Op.uninit]).mState = STATE_RUN := by
  decide

/-- On a device that is Idle or Initialized `uninit` does end in Idle: it returns success
(as it does in every state), the state afterwards is Idle, and a second `uninit` right
after it returns success again with the state still Idle. -/
theorem uninit_idle_or_initialized (d : Device) :
    (uninit d).2 = 0 ∧
    (d.mState = STATE_IDLE ∨ d.mState = STATE_INIT →
      (uninit d).1.mState = STATE_IDLE ∧
      (uninit (uninit d).1).2 = 0 ∧
      (uninit (uninit d).1).1.mState = STATE_IDLE) := by
  refine ⟨uninit_ret d, fun h => ?_⟩
  have h1 : (uninit d).1.mState = STATE_IDLE := by
    rw [uninit_mState]
    rcases h with h | h <;> simp [h]
  refine ⟨h1, uninit_ret _, ?_⟩
  rw [uninit_mState, h1]
  simp

/-- Two `uninit` calls on an Initialized device with a pool of four buffers: both return
success and the state is Idle after each. -/
theorem uninit_idle_or_initialized_witness :
    (uninit initializedDevice).2 = 0 ∧
    (uninit initializedDevice).1.mState = STATE_IDLE ∧
    (uninit (uninit initializedDevice).1).2 = 0 ∧
    (uninit (uninit initializedDevice).1).1.mState = STATE_IDLE :=
  ⟨(uninit_idle_or_initialized initializedDevice).1,
   (uninit_idle_or_initialized initializedDevice).2 (Or.inr rfl)⟩

theorem enqueueLoop_mState (env : StartEnv) (n i : Nat) (d : Device) :
    (enqueueLoop env n i d).1.mState = d.mState := by
  induction n generalizing i d with
  | zero => rfl
  | succ n ih =>
    simp only [enqueueLoop]
    split
    · rfl
    · rw [ih]; rfl

/-- If some enqueue among the `n` iterations from index `i` fails, the loop returns early
with a non-zero value. -/
theorem enqueueLoop_fails (env : StartEnv) (n i : Nat) (d : Device)
    (h : ∃ j, i ≤ j ∧ j < i + n ∧ env.v4l2_buf_q j ≠ 0) :
    (enqueueLoop env n i d).2 ≠ 0 := by
  induction n generalizing i d with
  | zero =>
    obtain ⟨j, h1, h2, _⟩ := h
    omega
  | succ n ih =>
    simp only [enqueueLoop]
    split
    · assumption
    · rename_i hi
      apply ih
      obtain ⟨j, h1, h2, h3⟩ := h
      have hji : j ≠ i := by
        rintro rfl
        exact h3 (not_not.mp hi)
      exact ⟨j, by omega, by omega, h3⟩

/-- C3: `start` returns success only if the state before the call was Initialized; on an
Idle or Running device it returns `-1` and leaves the device, trace of driver calls
included, exactly as it was; and on an Initialized device, if the buffer request, one of
the four enqueues or stream-on fails, it returns a non-zero value and the state is still
Initialized. -/
theorem start_contract (env : StartEnv) (d : Device) :
    ((start env d).2 = 0 → d.mState = STATE_INIT) ∧
    (d.mState = STATE_IDLE ∨ d.mState = STATE_RUN → start env d = (d, -1)) ∧
    (d.mState = STATE_INIT →
      (env.v4l2_buf_req ≠ 0 ∨ (∃ i, i < 4 ∧ env.v4l2_buf_q i ≠ 0) ∨ env.v4l2_streamon ≠ 0) →
      (start env d).2 ≠ 0 ∧ (start env d).1.mState = STATE_INIT) := by
  refine ⟨?_, ?_, ?_⟩
  · intro h
    by_contra hne
    simp [start, getState, hne] at h
  · intro h
    have hne : d.mState ≠ STATE_INIT := by
      rcases h with h | h <;> simp [h]
    simp [start, getState, hne]
  · intro hs hfail
    simp only [start, getState, hs, ne_eq, not_true_eq_false, if_false]
    by_cases hreq : env.v4l2_buf_req = 0
    · simp only [hreq, if_false, not_true_eq_false]
      by_cases hq : (enqueueLoop env 4 0 (d.log (Call.v4l2_buf_req d.mFd 4))).2 = 0
      · simp only [hq, if_false, not_true_eq_false]
        by_cases hon : env.v4l2_streamon = 0
        · exfalso
          rcases hfail with h | ⟨i, hi, hqi⟩ | h
          · exact h hreq
          · exact enqueueLoop_fails env 4 0 _ ⟨i, by omega, by omega, hqi⟩ hq
          · exact h hon
        · simp only [hon, if_true, not_false_eq_true]
          refine ⟨trivial, ?_⟩
          rw [log_mState, enqueueLoop_mState, log_mState, hs]
      · simp only [hq, if_true, not_false_eq_true]
        refine ⟨trivial, ?_⟩
        rw [enqueueLoop_mState, log_mState, hs]
    · simp only [hreq, if_true, not_false_eq_true]
      exact ⟨trivial, by rw [log_mState, hs]⟩

/-- C3 at concrete inputs: a successful start from Initialized, a refused start from Idle,
and a start whose third enqueue fails. -/
theorem start_contract_witness :
    ((start startAllOk initializedDevice).2 = 0 ∧ initializedDevice.mState = STATE_INIT) ∧
    start startAllOk (deviceIn STATE_IDLE) = (deviceIn STATE_IDLE, -1) ∧
    ((start { startAllOk with v4l2_buf_q := fun i => if i = 2 then -1 else 0 }
        initializedDevice).2 ≠ 0 ∧
     (start { startAllOk with v4l2_buf_q := fun i => if i = 2 then -1 else 0 }
        initializedDevice).1.mState = STATE_INIT) :=
  ⟨⟨by decide, (start_contract startAllOk initializedDevice).1 (by decide)⟩,
   (start_contract startAllOk (deviceIn STATE_IDLE)).2.1 (Or.inl rfl),
   (start_contract { startAllOk with v4l2_buf_q := fun i => if i = 2 then -1 else 0 }
      initializedDevice).2.2 rfl (Or.inr (Or.inl ⟨2, by decide, by decide⟩))⟩

/-! ## Buffer pool: theorems -/

/-- C4: on a freshly constructed device, with every driver call succeeding and the third
pool allocation (slot 2) failing, `init` returns `0` and the state is Initialized; the
pool it leaves has four null slots. -/
theorem init_succeeds_despite_failed_allocation :
    (initAllocFailingAt 2).alloc.memalign 2 = 0 ∧
    (init (initAllocFailingAt 2) (new sampleFormats "/dev/video2")).2 = 0 ∧
    (init (initAllocFailingAt 2) (new sampleFormats "/dev/video2")).1.mState = STATE_INIT ∧
    (init (initAllocFailingAt 2) (new sampleFormats "/dev/video2")).1.mFrmBuf
      = some [0, 0, 0, 0] := by
  decide

/-- C5: with count 4 and a non-zero size, when the allocation for slot 2 fails
`allocFrameBuffer` returns `0`; only a failure of the allocation for slot 0 makes it
return `-1`. -/
theorem allocFrameBuffer_reports_success_on_failure :
    (allocFailingAt 2).memalign 2 = 0 ∧
    (allocFrameBuffer (allocFailingAt 2) (deviceIn STATE_IDLE) 4 614400).2 = 0 ∧
    (allocFrameBuffer (allocFailingAt 1) (deviceIn STATE_IDLE) 4 614400).2 = 0 ∧
    (allocFrameBuffer (allocFailingAt 3) (deviceIn STATE_IDLE) 4 614400).2 = 0 ∧
    (allocFrameBuffer (allocFailingAt 0) (deviceIn STATE_IDLE) 4 614400).2 = -1 := by
  decide


theorem slot_eq (d : Device) (L : List Nat) (h : d.mFrmBuf = some L) (i : Nat) :
    slot d i = L.getD i 0 := by
  simp [slot, h]

/-- The inner loop frees slots `i-1, …, 0` in that order and stores null in each. -/
theorem unwindLoop_eq (i : Nat) (d : Device) (L : List Nat) (hL : d.mFrmBuf = some L)
    (hi : i ≤ L.length) :
    unwindLoop i d =
      { d with
        mFrmBuf := some (List.replicate i 0 ++ L.drop i)
        calls := d.calls ++ (List.range i).reverse.map (fun j => Call.free (L.getD j 0)) } := by
  induction i generalizing d L with
  | zero =>
    cases d
    simp_all [unwindLoop]
  | succ i ih =>
    have hlt : i < L.length := hi
    rw [unwindLoop, ih _ (L.set i 0) (by simp [setSlot, Device.log, hL]) (by simp; omega)]
    have h1 : List.drop i (L.set i 0) = 0 :: List.drop (i + 1) L := by
      rw [List.drop_set, if_neg (lt_irrefl i), Nat.sub_self, List.drop_eq_getElem_cons hlt,
        List.set_cons_zero]
    have h2 : ∀ j ∈ (List.range i).reverse, Call.free ((L.set i 0).getD j 0)
        = Call.free (L.getD j 0) := by
      intro j hj
      have : j < i := by simpa using hj
      simp [List.getD_eq_getElem?_getD, List.getElem?_set, Nat.ne_of_gt this]
    rw [h1, List.map_congr_left h2, slot_eq d L hL]
    simp [setSlot, Device.log, List.range_succ, List.replicate_succ', List.append_assoc]

/-- Storing the address of allocation `i` extends the allocated prefix of the pool. -/
theorem set_next_slot (mem : Nat → Nat) (i m : Nat) (p : Nat) :
    ((List.range i).map mem ++ List.replicate (m + 1) 0).set i p
      = (List.range i).map mem ++ p :: List.replicate m 0 := by
  rw [List.set_append, if_neg (by simp)]
  simp [List.replicate_succ]

/-- The allocation loop when the allocation for slot `k` is the first to fail. -/
theorem allocLoop_fail (env : AllocEnv) (len : Nat) (m i k : Nat) (d : Device) (ret : Int)
    (hL : d.mFrmBuf = some ((List.range i).map env.memalign ++ List.replicate m 0))
    (hik : i ≤ k) (hkm : k < i + m)
    (hok : ∀ j, i ≤ j → j < k → env.memalign j ≠ 0) (hk : env.memalign k = 0) :
    allocLoop env len m i (d, ret) =
      ({ d with
         mFrmBuf := some (List.replicate (i + m) 0)
         calls := d.calls ++ List.replicate (k + 1 - i) (Call.memalign env.getpagesize len)
           ++ (List.range k).reverse.map (fun j => Call.free (env.memalign j)) },
       if k = i then ret else 0) := by
  induction m generalizing i d ret with
  | zero => omega
  | succ m ih =>
    rw [allocLoop]
    by_cases hp : env.memalign i = 0
    · have hki : k = i := by
        by_contra hne
        exact hok i le_rfl (by omega) hp
      subst hki
      simp only [hp, if_true]
      have hL1 : (setSlot (d.log (Call.memalign env.getpagesize len)) k 0).mFrmBuf
          = some ((List.range k).map env.memalign ++ List.replicate (m + 1) 0) := by
        simp only [setSlot, Device.log, hL, Option.map_some', set_next_slot]
        simp [List.replicate_succ]
      rw [unwindLoop_eq k _ _ hL1 (by simp)]
      have h2 : ∀ j ∈ (List.range k).reverse,
          Call.free (((List.range k).map env.memalign ++ List.replicate (m + 1) 0).getD j 0)
            = Call.free (env.memalign j) := by
        intro j hj
        have hj1 : j < k := by simpa using hj
        simp [List.getD_eq_getElem?_getD, List.getElem?_append, hj1]
      rw [List.map_congr_left h2, List.drop_append_of_le_length (by simp)]
      simp [setSlot, Device.log, List.append_assoc]
      rw [List.drop_eq_nil_of_le (by simp), List.nil_append, List.append_replicate_replicate]
    · have hki : k ≠ i := by
        rintro rfl
        exact hp hk
      simp only [hp, if_false]
      have hL1 : (setSlot (d.log (Call.memalign env.getpagesize len)) i (env.memalign i)).mFrmBuf
          = some ((List.range (i + 1)).map env.memalign ++ List.replicate m 0) := by
        simp only [setSlot, Device.log, hL, Option.map_some', set_next_slot]
        simp [List.range_succ]
      rw [ih (i + 1) _ 0 hL1 (by omega) (by omega) (fun j h1 h2 => hok j (by omega) h2)]
      have e1 : k + 1 - i = (k + 1 - (i + 1)) + 1 := by omega
      simp [setSlot, Device.log, hki, e1, List.replicate_succ, List.append_assoc]
      omega

/-- The allocation loop when every remaining allocation succeeds. -/
theorem allocLoop_ok (env : AllocEnv) (len : Nat) (m i : Nat) (d : Device) (ret : Int)
    (hL : d.mFrmBuf = some ((List.range i).map env.memalign ++ List.replicate m 0))
    (hok : ∀ j, i ≤ j → j < i + m → env.memalign j ≠ 0) :
    allocLoop env len m i (d, ret) =
      ({ d with
         mFrmBuf := some ((List.range (i + m)).map env.memalign)
         calls := d.calls ++ List.replicate m (Call.memalign env.getpagesize len) },
       if m = 0 then ret else 0) := by
  induction m generalizing i d ret with
  | zero =>
    cases d
    simp_all [allocLoop]
  | succ m ih =>
    rw [allocLoop]
    have hp : env.memalign i ≠ 0 := hok i le_rfl (by omega)
    simp only [hp, if_false]
    have hL1 : (setSlot (d.log (Call.memalign env.getpagesize len)) i (env.memalign i)).mFrmBuf
        = some ((List.range (i + 1)).map env.memalign ++ List.replicate m 0) := by
      simp only [setSlot, Device.log, hL, Option.map_some', set_next_slot]
      simp [List.range_succ]
    rw [ih (i + 1) _ 0 hL1 (fun j h1 h2 => hok j (by omega) (by omega))]
    have e1 : i + 1 + m = i + (m + 1) := by omega
    simp [setSlot, Device.log, e1, List.replicate_succ, List.append_assoc]

/-- C6: after `allocFrameBuffer(count, size)` with `count > 0` and `size > 0` the pool is
all or nothing.  If every allocation succeeds, the pool holds the `count` addresses
returned, none of them null, and the calls made are `count` allocations.  If the
allocation for slot `k` is the first to fail, all `count` slots are null, and the calls
made are the `k + 1` allocations for slots `0..k` followed by one `free` of each address
allocated for slots `k-1, …, 0`: nothing is allocated above `k`, nothing is freed twice. -/
theorem allocFrameBuffer_all_or_nothing (env : AllocEnv) (d : Device) (count size : Nat)
    (hc : 0 < count) (hs : 0 < size) :
    ((∀ i, i < count → env.memalign i ≠ 0) →
      (allocFrameBuffer env d count size).1.mFrmBuf = some ((List.range count).map env.memalign) ∧
      (∀ p ∈ (List.range count).map env.memalign, p ≠ 0) ∧
      ((List.range count).map env.memalign).length = count ∧
      (allocFrameBuffer env d count size).1.calls = d.calls ++
        List.replicate count (Call.memalign env.getpagesize (bufLen size env.getpagesize))) ∧
    (∀ k, k < count → (∀ i, i < k → env.memalign i ≠ 0) → env.memalign k = 0 →
      (allocFrameBuffer env d count size).1.mFrmBuf = some (List.replicate count 0) ∧
      (allocFrameBuffer env d count size).1.calls = d.calls ++
        List.replicate (k + 1) (Call.memalign env.getpagesize (bufLen size env.getpagesize)) ++
        (List.range k).reverse.map (fun i => Call.free (env.memalign i))) := by
  have hc1 : ¬ ((count : Int) = 0) := by omega
  have hc2 : ¬ ((count : Int) < 0) := by omega
  have hs1 : ¬ (size = 0) := by omega
  constructor
  · intro hok
    have h := allocLoop_ok env (bufLen size env.getpagesize) count 0
      { d with mFrmBuf := some (List.replicate count 0) } (-1) (by simp)
      (fun j _ h2 => hok j (by omega))
    simp only [allocFrameBuffer, hc1, hs1, hc2, or_self, if_false, Int.toNat_ofNat, h]
    refine ⟨by simp, ?_, by simp, by simp⟩
    intro p hp
    obtain ⟨i, hi, rfl⟩ := List.mem_map.mp hp
    exact hok i (by simpa using hi)
  · intro k hk hok hfail
    have h := allocLoop_fail env (bufLen size env.getpagesize) count 0 k
      { d with mFrmBuf := some (List.replicate count 0) } (-1) (by simp)
      (Nat.zero_le k) (by omega) (fun j _ h2 => hok j h2) hfail
    simp only [allocFrameBuffer, hc1, hs1, hc2, or_self, if_false, Int.toNat_ofNat, h]
    simp

/-- C6 at count 4: the third allocation failing leaves four null slots after three
allocations and two frees; no failure leaves the four returned addresses. -/
theorem allocFrameBuffer_all_or_nothing_witness :
    ((allocFrameBuffer (allocFailingAt 2) (deviceIn STATE_IDLE) (4 : Nat) 614400).1.mFrmBuf
        = some (List.replicate 4 0) ∧
      (allocFrameBuffer (allocFailingAt 2) (deviceIn STATE_IDLE) (4 : Nat) 614400).1.calls
        = (deviceIn STATE_IDLE).calls ++
          List.replicate (2 + 1)
            (Call.memalign (allocFailingAt 2).getpagesize
              (bufLen 614400 (allocFailingAt 2).getpagesize)) ++
          (List.range 2).reverse.map (fun i => Call.free ((allocFailingAt 2).memalign i))) ∧
    (allocFrameBuffer (allocFailingAt 4) (deviceIn STATE_IDLE) (4 : Nat) 614400).1.mFrmBuf
      = some ((List.range 4).map (allocFailingAt 4).memalign) :=
  ⟨(allocFrameBuffer_all_or_nothing (allocFailingAt 2) (deviceIn STATE_IDLE) 4 614400
      (by decide) (by decide)).2 2 (by decide) (by decide) (by decide),
   ((allocFrameBuffer_all_or_nothing (allocFailingAt 4) (deviceIn STATE_IDLE) 4 614400
      (by decide) (by decide)).1 (by decide)).1⟩


/-- Masking a 64-bit value with `2 ^ 64 - 2 ^ k` clears its `k` low bits. -/
theorem land_page_mask (x k : Nat) (hk : k ≤ 64) (hx : x < 2 ^ 64) :
    x &&& (2 ^ 64 - 2 ^ k) = 2 ^ k * (x / 2 ^ k) := by
  have hpos : 0 < 2 ^ k := Nat.two_pow_pos k
  have hmask : 2 ^ 64 - 2 ^ k = 2 ^ 64 - ((2 ^ k - 1) + 1) := by
    rw [Nat.sub_add_cancel hpos]
  have hlt : 2 ^ k - 1 < 2 ^ 64 :=
    lt_of_lt_of_le (Nat.sub_lt hpos (by decide)) (Nat.pow_le_pow_right (by decide) hk)
  apply Nat.eq_of_testBit_eq
  intro i
  rw [Nat.testBit_and, hmask, Nat.testBit_two_pow_sub_succ hlt, Nat.testBit_two_pow_sub_one,
    Nat.testBit_mul_pow_two, ← Nat.shiftRight_eq_div_pow, Nat.testBit_shiftRight]
  by_cases hik : i < k
  · have : ¬ (i ≥ k) := by omega
    simp [hik, this]
  · have hge : i ≥ k := by omega
    have e : k + (i - k) = i := by omega
    by_cases hi : i < 64
    · simp [hik, hge, hi, e]
    · have hxi : x.testBit i = false :=
        Nat.testBit_lt_two_pow (lt_of_lt_of_le hx (Nat.pow_le_pow_right (by decide) (by omega)))
      simp [hik, hge, hi, e, hxi]

/-- Under the no-overflow side condition the buffer length is the page size times the
rounded-up quotient. -/
theorem bufLen_eq (s p k : Nat) (hp : p = 2 ^ k) (hs : 0 < s) (hov : s + p - 1 < 2 ^ 64) :
    bufLen s p = p * ((s + p - 1) / p) := by
  have hpos : 0 < p := hp ▸ Nat.two_pow_pos k
  have hp64 : p < 2 ^ 64 := by omega
  have hk : k ≤ 64 := by
    by_contra hgt
    have : 2 ^ 64 ≤ 2 ^ k := Nat.pow_le_pow_right (by decide) (by omega)
    omega
  have e1 : (s + p + (2 ^ 64 - 1)) % 2 ^ 64 = s + p - 1 := by
    have : s + p + (2 ^ 64 - 1) = (s + p - 1) + 2 ^ 64 := by omega
    rw [this, Nat.add_mod_right, Nat.mod_eq_of_lt hov]
  have e2 : (2 ^ 64 - p % 2 ^ 64) % 2 ^ 64 = 2 ^ 64 - p := by
    rw [Nat.mod_eq_of_lt hp64, Nat.mod_eq_of_lt (by omega)]
  unfold bufLen
  rw [e1, e2, hp, land_page_mask _ k hk (by rw [← hp]; exact hov)]

/-- C7: for every requested size `s > 0` and every page size `p` that is a power of two,
with `s + p - 1` not overflowing the 64-bit `size_t`, the buffer length computed by
`allocFrameBuffer` is the smallest multiple of `p` that is at least `s`: it is divisible by
`p`, at least `s`, below `s + p`, and no greater than any multiple of `p` that is at least
`s`. -/
theorem bufLen_smallest_page_multiple (s p k : Nat) (hp : p = 2 ^ k) (hs : 0 < s)
    (hov : s + p - 1 < 2 ^ 64) :
    p ∣ bufLen s p ∧ s ≤ bufLen s p ∧ bufLen s p < s + p ∧
    ∀ m, p ∣ m → s ≤ m → bufLen s p ≤ m := by
  have hpos : 0 < p := hp ▸ Nat.two_pow_pos k
  rw [bufLen_eq s p k hp hs hov]
  have hle : p * ((s + p - 1) / p) ≤ s + p - 1 := Nat.mul_div_le _ _
  have hgt : s + p - 1 < p * ((s + p - 1) / p) + p := by
    have := Nat.lt_div_mul_add (a := s + p - 1) hpos
    rw [Nat.mul_comm] at this
    exact this
  refine ⟨Dvd.intro _ rfl, by omega, by omega, ?_⟩
  rintro m ⟨q, rfl⟩ hsm
  apply Nat.mul_le_mul_left
  apply Nat.lt_succ_iff.mp
  rw [Nat.div_lt_iff_lt_mul hpos, Nat.succ_mul, Nat.mul_comm q p]
  omega

/-- C7 at size 614401 with 4096-byte pages: the length is 618496, i.e. 151 pages. -/
theorem bufLen_smallest_page_multiple_witness :
    (4096 ∣ bufLen 614401 4096 ∧ 614401 ≤ bufLen 614401 4096 ∧
      bufLen 614401 4096 < 614401 + 4096 ∧
      ∀ m, 4096 ∣ m → 614401 ≤ m → bufLen 614401 4096 ≤ m) ∧
    bufLen 614401 4096 = 618496 :=
  ⟨bufLen_smallest_page_multiple 614401 4096 12 (by decide) (by decide) (by decide),
   by decide⟩


/-! ## Output size and pixel format: theorems -/

/-- C8, as stated, fails: on an Idle device `setSize(0, 5)` is rejected and a following
`getSize` yields the previous size `(640, 480)`, not `(0, 5)`. -/
theorem setSize_zero_width_rejected :
    (deviceIn STATE_IDLE).mState ≠ STATE_RUN ∧
    (setSize (deviceIn STATE_IDLE) 0 5).2 = 1 ∧
    (getSize (setSize (deviceIn STATE_IDLE) 0 5).1).1 = (640, 480) ∧
    (getSize (setSize (deviceIn STATE_IDLE) 0 5).1).1 ≠ (0, 5) := by
  decide

/-- C8 (amended): for every non-zero width `w` and non-zero height `h` and every device
whose state is not Running, `setSize(w, h)` returns `0` and a following `getSize` yields
exactly `(w, h)`; and for every `w`, `h` and every device whose state is Running,
`setSize(w, h)` returns non-zero and a following `getSize` yields the size set before the
call. -/
theorem setSize_getSize (d : Device) (w h : Nat) :
    (w ≠ 0 → h ≠ 0 → d.mState ≠ STATE_RUN →
      (setSize d w h).2 = 0 ∧ getSize (setSize d w h).1 = ((w, h), 0)) ∧
    (d.mState = STATE_RUN →
      (setSize d w h).2 ≠ 0 ∧ getSize (setSize d w h).1 = getSize d) := by
  constructor
  · intro hw hh hs
    simp [setSize, getSize, getState, hw, hh, hs]
  · intro hs
    by_cases hz : w = 0 ∨ h = 0
    · simp [setSize, hz]
    · simp [setSize, getState, hz, hs]

/-- The amended C8 at 320x240, on an Initialized and on a Running device. -/
theorem setSize_getSize_witness :
    ((setSize initializedDevice 320 240).2 = 0 ∧
      getSize (setSize initializedDevice 320 240).1 = ((320, 240), 0)) ∧
    ((setSize { initializedDevice with mState := STATE_RUN } 320 240).2 ≠ 0 ∧
      getSize (setSize { initializedDevice with mState := STATE_RUN } 320 240).1
        = getSize { initializedDevice with mState := STATE_RUN }) :=
  ⟨(setSize_getSize initializedDevice 320 240).1 (by decide) (by decide) (by decide),
   (setSize_getSize { initializedDevice with mState := STATE_RUN } 320 240).2 rfl⟩

/-- C9: `setPixelFormat(f)` returns `0` exactly when the state is not Running and `f` lies
strictly between `PIXEL_FORMAT_MIN` and `PIXEL_FORMAT_MAX`; in that case the device
afterwards differs from the one before only in its output pixel format, which is `f`; in
every other case the return value is non-zero and the device (output pixel format, output
size and state included) is unchanged. -/
theorem setPixelFormat_contract (K : PixelFormats) (d : Device) (f : Int) :
    ((setPixelFormat K d f).2 = 0 ∧ (setPixelFormat K d f).1.mOutPixelFormat = f ↔
      d.mState ≠ STATE_RUN ∧ K.PIXEL_FORMAT_MIN < f ∧ f < K.PIXEL_FORMAT_MAX) ∧
    (d.mState ≠ STATE_RUN ∧ K.PIXEL_FORMAT_MIN < f ∧ f < K.PIXEL_FORMAT_MAX →
      setPixelFormat K d f = ({ d with mOutPixelFormat := f }, 0)) ∧
    (¬ (d.mState ≠ STATE_RUN ∧ K.PIXEL_FORMAT_MIN < f ∧ f < K.PIXEL_FORMAT_MAX) →
      (setPixelFormat K d f).2 ≠ 0 ∧ (setPixelFormat K d f).1 = d) := by
  by_cases hc : d.mState ≠ STATE_RUN ∧ K.PIXEL_FORMAT_MIN < f ∧ f < K.PIXEL_FORMAT_MAX
  · have hr : ¬ (f ≤ K.PIXEL_FORMAT_MIN ∨ f ≥ K.PIXEL_FORMAT_MAX) := by omega
    have e : setPixelFormat K d f = ({ d with mOutPixelFormat := f }, 0) := by
      simp [setPixelFormat, getState, hr, hc.1]
    rw [e]
    exact ⟨⟨fun _ => hc, fun _ => ⟨rfl, rfl⟩⟩, fun _ => rfl, fun h => absurd hc h⟩
  · have e : setPixelFormat K d f = (d, 1) := by
      by_cases hr : f ≤ K.PIXEL_FORMAT_MIN ∨ f ≥ K.PIXEL_FORMAT_MAX
      · simp [setPixelFormat, hr]
      · have hs : d.mState = STATE_RUN := by
          by_contra hs
          exact hc ⟨hs, by omega, by omega⟩
        simp [setPixelFormat, getState, hr, hs]
    rw [e]
    have h1 : ((d, (1 : Int)).2 : Int) ≠ 0 := by simp
    exact ⟨⟨fun h => absurd h.1 h1, fun h => absurd h hc⟩, fun h => absurd h hc,
      fun _ => ⟨h1, rfl⟩⟩

/-- C9 at concrete inputs: an accepted format, a format equal to the upper bound, and a
Running device. -/
theorem setPixelFormat_contract_witness :
    setPixelFormat sampleFormats initializedDevice 1
      = ({ initializedDevice with mOutPixelFormat := 1 }, 0) ∧
    ((setPixelFormat sampleFormats initializedDevice 7).2 ≠ 0 ∧
      (setPixelFormat sampleFormats initializedDevice 7).1 = initializedDevice) ∧
    ((setPixelFormat sampleFormats { initializedDevice with mState := STATE_RUN } 1).2 ≠ 0 ∧
      (setPixelFormat sampleFormats { initializedDevice with mState := STATE_RUN } 1).1
        = { initializedDevice with mState := STATE_RUN }) :=
  ⟨(setPixelFormat_contract sampleFormats initializedDevice 1).2.1 (by decide),
   (setPixelFormat_contract sampleFormats initializedDevice 7).2.2 (by decide),
   (setPixelFormat_contract sampleFormats { initializedDevice with mState := STATE_RUN } 1).2.2
     (by decide)⟩

/-! ## Format transform: theorems -/

/-- One output row: `n` bytes are written from index `k` on, byte `k + i` being the
source byte at offset `c + 2 * (i0 + i) + 1`; nothing else is touched. -/
theorem rowLoop_spec (U : Int → Nat) (c : Int) (n i0 : Nat) (M : Nat → Nat) (k : Nat) :
    (forLoop (fun i (s : (Nat → Nat) × Nat) =>
        (Function.update s.1 s.2 (U (c + 2 * (i : Int) + 1)), s.2 + 1)) n i0 (M, k)).2 = k + n ∧
    (∀ i, i < n →
      (forLoop (fun i (s : (Nat → Nat) × Nat) =>
        (Function.update s.1 s.2 (U (c + 2 * (i : Int) + 1)), s.2 + 1)) n i0 (M, k)).1 (k + i)
        = U (c + 2 * ((i0 + i : Nat) : Int) + 1)) ∧
    (∀ p, p < k ∨ k + n ≤ p →
      (forLoop (fun i (s : (Nat → Nat) × Nat) =>
        (Function.update s.1 s.2 (U (c + 2 * (i : Int) + 1)), s.2 + 1)) n i0 (M, k)).1 p
        = M p) := by
  induction n generalizing i0 M k with
  | zero =>
    refine ⟨rfl, ?_, ?_⟩
    · intro i hi; omega
    · intro p _; rfl
  | succ n ih =>
    obtain ⟨h1, h2, h3⟩ := ih (i0 + 1) (Function.update M k (U (c + 2 * (i0 : Int) + 1))) (k + 1)
    simp only [forLoop]
    refine ⟨by rw [h1]; omega, ?_, ?_⟩
    · intro i hi
      cases i with
      | zero =>
        have h := h3 k (Or.inl (Nat.lt_succ_self k))
        simpa using h
      | succ i =>
        have e : k + (i + 1) = k + 1 + i := by omega
        have e2 : i0 + (i + 1) = i0 + 1 + i := by omega
        rw [e, e2]
        exact h2 i (by omega)
    · intro p hp
      rw [h3 p (by omega)]
      have : p ≠ k := by omega
      simp [Function.update, this]

/-- The row loop of `uyvy2mono8`: `n` rows of `W` bytes are written from index `k` on. -/
theorem rowsLoop_spec (U : Int → Nat) (W : Nat) (S : Int) (n j0 : Nat) (M : Nat → Nat)
    (k : Nat) :
    (forLoop (fun j s => forLoop (fun i (s : (Nat → Nat) × Nat) =>
        (Function.update s.1 s.2 (U ((j : Int) * 2 * S + 2 * (i : Int) + 1)), s.2 + 1))
        W 0 s) n j0 (M, k)).2 = k + n * W ∧
    (∀ j i, j < n → i < W →
      (forLoop (fun j s => forLoop (fun i (s : (Nat → Nat) × Nat) =>
        (Function.update s.1 s.2 (U ((j : Int) * 2 * S + 2 * (i : Int) + 1)), s.2 + 1))
        W 0 s) n j0 (M, k)).1 (k + j * W + i)
        = U (((j0 + j : Nat) : Int) * 2 * S + 2 * (i : Int) + 1)) ∧
    (∀ p, p < k ∨ k + n * W ≤ p →
      (forLoop (fun j s => forLoop (fun i (s : (Nat → Nat) × Nat) =>
        (Function.update s.1 s.2 (U ((j : Int) * 2 * S + 2 * (i : Int) + 1)), s.2 + 1))
        W 0 s) n j0 (M, k)).1 p = M p) := by
  induction n generalizing j0 M k with
  | zero =>
    refine ⟨by simp [forLoop], ?_, ?_⟩
    · intro j i hj; omega
    · intro p _; rfl
  | succ n ih =>
    obtain ⟨r1, r2, r3⟩ := rowLoop_spec U ((j0 : Int) * 2 * S) W 0 M k
    simp only [forLoop]
    generalize hrow : forLoop (fun i (s : (Nat → Nat) × Nat) =>
        (Function.update s.1 s.2 (U ((j0 : Int) * 2 * S + 2 * (i : Int) + 1)), s.2 + 1))
        W 0 (M, k) = row at r1 r2 r3
    obtain ⟨M1, k1⟩ := row
    simp only at r1 r2 r3
    subst r1
    obtain ⟨h1, h2, h3⟩ := ih (j0 + 1) M1 (k + W)
    refine ⟨by rw [h1, Nat.succ_mul]; omega, ?_, ?_⟩
    · intro j i hj hi
      cases j with
      | zero =>
        have h := h3 (k + 0 * W + i) (Or.inl (by omega))
        rw [h]
        have h' := r2 i hi
        simpa using h'
      | succ j =>
        have e : k + (j + 1) * W + i = k + W + j * W + i := by rw [Nat.succ_mul]; omega
        have e2 : j0 + (j + 1) = j0 + 1 + j := by omega
        rw [e, e2]
        exact h2 j i (by omega) hi
    · intro p hp
      have hp' : p < k ∨ k + W + n * W ≤ p := by
        rw [Nat.succ_mul] at hp; omega
      rw [h3 p (by omega)]
      exact r3 p (by omega)

/-- C10: for every source buffer, stride `S`, output width `W` and output height `H`,
`uyvy2mono8` writes exactly `W * H` output bytes (the write index ends at `W * H` and no
byte at or beyond that index is changed), and for every row `j < H` and column `i < W`
the output byte at `j * W + i` is the source byte at offset `j * 2 * S + 2 * i + 1`. -/
theorem uyvy2mono8_extracts_luma (UYVY : Int → Nat) (MONO : Nat → Nat) (W H S : Nat) :
    (uyvy2mono8 UYVY MONO W H S).2 = W * H ∧
    (∀ j i, j < H → i < W →
      (uyvy2mono8 UYVY MONO W H S).1 (j * W + i)
        = UYVY ((j : Int) * 2 * (S : Int) + 2 * (i : Int) + 1)) ∧
    (∀ p, W * H ≤ p → (uyvy2mono8 UYVY MONO W H S).1 p = MONO p) := by
  obtain ⟨h1, h2, h3⟩ := rowsLoop_spec UYVY W (S : Int) H 0 MONO 0
  simp only [uyvy2mono8, Int.toNat_ofNat]
  refine ⟨by rw [h1, Nat.mul_comm]; omega, ?_, ?_⟩
  · intro j i hj hi
    have h := h2 j i hj hi
    simpa using h
  · intro p hp
    exact h3 p (Or.inr (by rw [Nat.mul_comm]; omega))

/-- C10 on the 4x2 window of `lumaPattern`: eight bytes are written and they are the
luma values of the two rows. -/
theorem uyvy2mono8_extracts_luma_witness :
    (uyvy2mono8 lumaPattern (fun _ => 0) (4 : Nat) (2 : Nat) (4 : Nat)).2 = 4 * 2 ∧
    (List.range 8).map (uyvy2mono8 lumaPattern (fun _ => 0) (4 : Nat) (2 : Nat) (4 : Nat)).1
      = [1, 2, 3, 4, 11, 12, 13, 14] ∧
    (uyvy2mono8 lumaPattern (fun _ => 0) (4 : Nat) (2 : Nat) (4 : Nat)).1 (1 * 4 + 2)
      = lumaPattern ((1 : Nat) * 2 * (4 : Nat) + 2 * (2 : Nat) + 1) :=
  ⟨(uyvy2mono8_extracts_luma lumaPattern (fun _ => 0) 4 2 4).1,
   by decide,
   (uyvy2mono8_extracts_luma lumaPattern (fun _ => 0) 4 2 4).2.1 1 2 (by decide) (by decide)⟩


/-! ## Frame acquisition and recovery: theorems

None of the lemmas below depends on the value of `bufLen`; it is kept folded so that
unification never unfolds its 64-bit arithmetic. -/

attribute [irreducible] bufLen

theorem log_settings (d : Device) (c : Call) : (d.log c).settings = d.settings := rfl

theorem setState_settings (d : Device) (s : State) : (setState d s).1.settings = d.settings := by
  cases hd : d.mState <;> cases s <;> simp [setState, hd, Device.settings]

theorem setState_mState (d : Device) (s : State) :
    (setState d s).1.mState = d.mState ∨ (setState d s).1.mState = s := by
  unfold setState
  cases hd : d.mState <;> cases s <;> simp [hd]

theorem freeLoop_settings (n i : Nat) (d : Device) : (freeLoop n i d).settings = d.settings := by
  induction n generalizing i d with
  | zero => rfl
  | succ n ih => simp [freeLoop, ih, log_settings]

theorem freeFrameBuffer_settings (d : Device) : (freeFrameBuffer d).1.settings = d.settings := by
  unfold freeFrameBuffer
  cases d.mFrmBuf
  · rfl
  · exact freeLoop_settings _ _ _

theorem uninit_settings (d : Device) : (uninit d).1.settings = d.settings := by
  unfold uninit
  split_ifs
  · rfl
  · rw [setState_settings, freeFrameBuffer_settings]; rfl

theorem setSlot_settings (d : Device) (i p : Nat) : (setSlot d i p).settings = d.settings := rfl

theorem setSlot_mState (d : Device) (i p : Nat) : (setSlot d i p).mState = d.mState := rfl

theorem unwindLoop_settings (i : Nat) (d : Device) : (unwindLoop i d).settings = d.settings := by
  induction i generalizing d with
  | zero => rfl
  | succ i ih => simp [unwindLoop, ih, setSlot_settings, log_settings]

theorem unwindLoop_mState (i : Nat) (d : Device) : (unwindLoop i d).mState = d.mState := by
  induction i generalizing d with
  | zero => rfl
  | succ i ih => simp [unwindLoop, ih, setSlot_mState, log_mState]

theorem allocLoop_settings (env : AllocEnv) (len n i : Nat) (d : Device) (ret : Int) :
    (allocLoop env len n i (d, ret)).1.settings = d.settings := by
  induction n generalizing i d ret with
  | zero => rfl
  | succ n ih =>
    simp only [allocLoop]
    split_ifs
    · simp [unwindLoop_settings, setSlot_settings, log_settings]
    · simp [ih, setSlot_settings, log_settings]

theorem allocLoop_mState (env : AllocEnv) (len n i : Nat) (d : Device) (ret : Int) :
    (allocLoop env len n i (d, ret)).1.mState = d.mState := by
  induction n generalizing i d ret with
  | zero => rfl
  | succ n ih =>
    simp only [allocLoop]
    split_ifs
    · simp [unwindLoop_mState, setSlot_mState, log_mState]
    · simp [ih, setSlot_mState, log_mState]

theorem settings_mBufLen (d : Device) (n : Nat) :
    ({ d with mBufLen := n } : Device).settings = d.settings := rfl

theorem mState_mBufLen (d : Device) (n : Nat) :
    ({ d with mBufLen := n } : Device).mState = d.mState := rfl

theorem allocFrameBuffer_settings (env : AllocEnv) (d : Device) (cnt : Int) (size : Nat) :
    (allocFrameBuffer env d cnt size).1.settings = d.settings := by
  unfold allocFrameBuffer
  split
  · rfl
  · have h := allocLoop_settings env (bufLen size env.getpagesize) cnt.toNat 0
      { d with mFrmBuf := if cnt < 0 then none else some (List.replicate cnt.toNat 0) } (-1)
    exact (settings_mBufLen _ _).trans h

theorem allocFrameBuffer_mState (env : AllocEnv) (d : Device) (cnt : Int) (size : Nat) :
    (allocFrameBuffer env d cnt size).1.mState = d.mState := by
  unfold allocFrameBuffer
  split
  · rfl
  · have h := allocLoop_mState env (bufLen size env.getpagesize) cnt.toNat 0
      { d with mFrmBuf := if cnt < 0 then none else some (List.replicate cnt.toNat 0) } (-1)
    exact (mState_mBufLen _ _).trans h

theorem init_settings (env : InitEnv) (d : Device) : (init env d).1.settings = d.settings := by
  unfold init initError
  dsimp only
  split_ifs <;>
    first
    | (simp only [log_settings, setState_settings, allocFrameBuffer_settings]; done)
    | (simp only [log_settings, setState_settings, allocFrameBuffer_settings]; rfl)

/-- Either `init` fails and leaves the state as it was, or it succeeds, in which case it was
called on an Idle device and leaves it Initialized. -/
theorem init_cases (env : InitEnv) (d : Device) :
    ((init env d).2 ≠ 0 ∧ (init env d).1.mState = d.mState) ∨
    ((init env d).2 = 0 ∧ d.mState = STATE_IDLE ∧ (init env d).1.mState = STATE_INIT) := by
  have hneg : ((-1 : Int) ≠ 0) := by decide
  have h1 : ∀ e : Device, e.mState = STATE_IDLE →
      (setState e STATE_INIT).1.mState = STATE_INIT := by
    intro e he
    simp [setState, he]
  unfold init initError getState
  dsimp only
  split_ifs with a1 a2 a3 a4 a5 a6 a7
  all_goals simp only [log_mState, allocFrameBuffer_mState]
  all_goals first
    | exact Or.inl ⟨by assumption, trivial⟩
    | (refine Or.inr ⟨trivial, not_not.mp a1, h1 _ ?_⟩
       simp only [allocFrameBuffer_mState, log_mState]
       exact not_not.mp a1)

theorem stop_settings (d : Device) : (stop d).1.settings = d.settings := by
  unfold stop
  split_ifs
  · rfl
  · rw [setState_settings]; rfl

/-- On a Running device `stop` succeeds and leaves it Initialized; on any other device it
returns `-1` and changes nothing. -/
theorem stop_cases (d : Device) :
    (d.mState = STATE_RUN ∧ (stop d).2 = 0 ∧ (stop d).1.mState = STATE_INIT) ∨
    (d.mState ≠ STATE_RUN ∧ stop d = (d, -1)) := by
  by_cases h : d.mState = STATE_RUN
  · refine Or.inl ⟨h, ?_, ?_⟩
    · simp [stop, getState, h]
    · simp [stop, getState, h, setState, Device.log]
  · exact Or.inr ⟨h, by simp [stop, getState, h]⟩

theorem enqueueLoop_settings (env : StartEnv) (n i : Nat) (d : Device) :
    (enqueueLoop env n i d).1.settings = d.settings := by
  induction n generalizing i d with
  | zero => rfl
  | succ n ih =>
    simp only [enqueueLoop]
    split
    · rfl
    · rw [ih]; rfl

theorem start_settings (env : StartEnv) (d : Device) : (start env d).1.settings = d.settings := by
  unfold start
  dsimp only
  split_ifs <;> simp only [log_settings, setState_settings, enqueueLoop_settings]

/-- Either `start` fails and leaves the state as it was, or it succeeds, in which case it
was called on an Initialized device and leaves it Running. -/
theorem start_cases (env : StartEnv) (d : Device) :
    ((start env d).2 ≠ 0 ∧ (start env d).1.mState = d.mState) ∨
    ((start env d).2 = 0 ∧ d.mState = STATE_INIT ∧ (start env d).1.mState = STATE_RUN) := by
  have hneg : ((-1 : Int) ≠ 0) := by decide
  have h1 : ∀ e : Device, e.mState = STATE_INIT →
      (setState e STATE_RUN).1.mState = STATE_RUN := by
    intro e he
    simp [setState, he]
  unfold start getState
  dsimp only
  split_ifs with a1 a2 a3 a4
  all_goals simp only [log_mState, enqueueLoop_mState]
  all_goals first
    | exact Or.inl ⟨by assumption, trivial⟩
    | (refine Or.inr ⟨not_not.mp a4, not_not.mp a1, h1 _ ?_⟩
       simp only [enqueueLoop_mState, log_mState]
       exact not_not.mp a1)

theorem restart_settings (e : PollEnv) (d : Device) : (restart e d).settings = d.settings := by
  unfold restart
  simp only [start_settings, init_settings, uninit_settings, stop_settings]

/-- After the restart sequence on a Running device the state is Running exactly when both
`init` and `start` returned `0`; otherwise it is Idle (failed `init`) or Initialized
(failed `start`). -/
theorem restart_cases (e : PollEnv) (d : Device) (hd : d.mState = STATE_RUN) :
    (stop d).2 = 0 ∧ (stop d).1.mState = STATE_INIT ∧
    (uninit (stop d).1).1.mState = STATE_IDLE ∧
    (((init e.initEnv (uninit (stop d).1).1).2 ≠ 0 ∧ (restart e d).mState = STATE_IDLE) ∨
     ((init e.initEnv (uninit (stop d).1).1).2 = 0 ∧
       (start e.startEnv (init e.initEnv (uninit (stop d).1).1).1).2 ≠ 0 ∧
       (restart e d).mState = STATE_INIT) ∨
     ((init e.initEnv (uninit (stop d).1).1).2 = 0 ∧
       (start e.startEnv (init e.initEnv (uninit (stop d).1).1).1).2 = 0 ∧
       (restart e d).mState = STATE_RUN)) := by
  have hstop : (stop d).2 = 0 ∧ (stop d).1.mState = STATE_INIT := by
    rcases stop_cases d with h | h
    · exact ⟨h.2.1, h.2.2⟩
    · exact absurd hd h.1
  have hun : (uninit (stop d).1).1.mState = STATE_IDLE := by
    rw [uninit_mState, hstop.2]; rfl
  refine ⟨hstop.1, hstop.2, hun, ?_⟩
  unfold restart
  dsimp only
  generalize (uninit (stop d).1).1 = d2 at hun ⊢
  rcases init_cases e.initEnv d2 with hi | hi
  · left
    refine ⟨hi.1, ?_⟩
    have h3 : (init e.initEnv d2).1.mState = STATE_IDLE := by rw [hi.2, hun]
    generalize (init e.initEnv d2).1 = d3 at h3 ⊢
    rcases start_cases e.startEnv d3 with hs | hs
    · rw [hs.2, h3]
    · rw [h3] at hs; exact absurd hs.2.1 (by decide)
  · right
    have h3 : (init e.initEnv d2).1.mState = STATE_INIT := hi.2.2
    have hi0 := hi.1
    generalize (init e.initEnv d2).1 = d3 at h3 ⊢
    generalize (init e.initEnv d2).2 = r3 at hi0 ⊢
    rcases start_cases e.startEnv d3 with hs | hs
    · exact Or.inl ⟨hi0, hs.1, by rw [hs.2, h3]⟩
    · exact Or.inr ⟨hi0, hs.1, hs.2.2⟩


theorem restart_ne_error (e : PollEnv) (d : Device) (hd : d.mState = STATE_RUN) :
    (restart e d).mState ≠ STATE_ERROR := by
  rcases (restart_cases e d hd).2.2.2 with h | h | h
  · rw [h.2]; decide
  · rw [h.2.2]; decide
  · rw [h.2.2]; decide

theorem pollCamera_settings (polls : Nat → PollEnv) (fd : Int) (fuel n : Nat) (d : Device) :
    (pollCamera polls fd fuel n d).1.settings = d.settings := by
  induction fuel generalizing n d with
  | zero =>
    unfold pollCamera
    split <;> rfl
  | succ fuel ih =>
    unfold pollCamera
    dsimp only
    split_ifs
    · rw [ih]; rfl
    · rfl
    · rw [ih, restart_settings]; rfl
    · rfl
    · rfl

theorem pollCamera_ne_error (polls : Nat → PollEnv) (fd : Int) (fuel n : Nat) (d : Device)
    (hd : d.mState ≠ STATE_ERROR) :
    (pollCamera polls fd fuel n d).1.mState ≠ STATE_ERROR := by
  induction fuel generalizing n d with
  | zero =>
    unfold pollCamera
    split <;> exact hd
  | succ fuel ih =>
    unfold pollCamera
    dsimp only
    split_ifs with h1 h2 h3 h4
    · exact ih _ _ hd
    · exact hd
    · exact ih _ _ (restart_ne_error _ _ h1)
    · exact hd
    · exact hd

/-- When `pollCamera` returns `0` the device is Running. -/
theorem pollCamera_ready_state (polls : Nat → PollEnv) (fd : Int) (fuel n : Nat) (d : Device)
    (h : (pollCamera polls fd fuel n d).2 = some 0) :
    (pollCamera polls fd fuel n d).1.mState = STATE_RUN := by
  induction fuel generalizing n d with
  | zero =>
    unfold pollCamera at h ⊢
    split_ifs at h ⊢
    all_goals simp at h
  | succ fuel ih =>
    unfold pollCamera at h ⊢
    dsimp only at h ⊢
    split_ifs at h ⊢ with h1 h2 h3 h4
    · exact ih _ _ h
    · simp at h
    · exact ih _ _ h
    · exact h1
    · simp at h


/-- C13: on a device whose state is not Running (Idle, Initialized or Error), `read`
returns `-1` at once: the device, with its trace of external calls (no poll, no dequeue, no
enqueue, no restart) and its state, the caller's frame and the scratch bytes are exactly as
before the call. -/
theorem read_not_running (K : PixelFormats) (env : ReadEnv) (fuel : Nat) (d : Device)
    (frame : CameraFrame) (scratch : Nat → Nat) (h : d.mState ≠ STATE_RUN) :
    read K env fuel d frame scratch = ⟨d, frame, scratch, some (-1)⟩ := by
  unfold read getState
  rw [if_pos h]

/-- C13 on an Initialized device, whatever the number of iterations allowed to the poll. -/
theorem read_not_running_witness :
    initializedDevice.mState ≠ STATE_RUN ∧
    read sampleFormats (readOk (fun _ => pollReady)) 5 initializedDevice blankFrame (fun _ => 0)
      = ⟨initializedDevice, blankFrame, fun _ => 0, some (-1)⟩ :=
  ⟨by decide,
   read_not_running sampleFormats (readOk (fun _ => pollReady)) 5 initializedDevice blankFrame
     (fun _ => 0) (by decide)⟩


/-- Two devices with the same settings take the same path through `read`. -/
theorem needsConversion_congr (d e : Device) (h : e.settings = d.settings) :
    needsConversion e = needsConversion d := by
  simp only [Device.settings, Prod.mk.injEq] at h
  obtain ⟨_, h2, h3, h4, h5, h6, h7, _, _⟩ := h
  simp only [needsConversion, h2, h3, h4, h5, h6, h7]

/-- C16: on a Running device whose output format and size equal the native ones, when the
poll returns `0`, the dequeue succeeds and hands back a non-null buffer, `read` fills the
frame with the native width, height and pixel format, the dequeued address itself as
buffer, the bytes used as size and stride `mWidth * 2`; the scratch bytes and `mOutBuf`
are untouched (no transform, no allocation); after the poll the only external calls are
the dequeue and the enqueue of that same buffer, and the value returned is the result of
that enqueue. -/
theorem read_zero_copy (K : PixelFormats) (env : ReadEnv) (fuel : Nat) (d : Device)
    (frame : CameraFrame) (scratch : Nat → Nat)
    (hrun : d.mState = STATE_RUN) (hfmt : d.mOutPixelFormat = d.mPixelFormat)
    (hw : d.mOutWidth = d.mWidth) (hh : d.mOutHeight = d.mHeight)
    (hpoll : (pollCamera env.polls d.mFd fuel 0 d).2 = some 0)
    (hdq : env.v4l2_buf_dq = 0) (hptr : env.userptr ≠ 0) :
    (read K env fuel d frame scratch).frame =
      { width := d.mWidth, height := d.mHeight, pixFmt := d.mPixelFormat,
        stride := d.mWidth * 2 % 2 ^ 32, buf := BufRef.userptr env.userptr,
        bufSize := env.bytesused } ∧
    (d.mWidth * 2 < 2 ^ 32 → (read K env fuel d frame scratch).frame.stride = d.mWidth * 2) ∧
    (read K env fuel d frame scratch).scratch = scratch ∧
    (read K env fuel d frame scratch).device.mOutBuf = d.mOutBuf ∧
    (read K env fuel d frame scratch).device.calls =
      (pollCamera env.polls d.mFd fuel 0 d).1.calls ++
        [Call.v4l2_buf_dq (pollCamera env.polls d.mFd fuel 0 d).1.mFd,
         Call.v4l2_buf_q (pollCamera env.polls d.mFd fuel 0 d).1.mFd env.index env.userptr
           env.length] ∧
    (read K env fuel d frame scratch).ret = some env.v4l2_buf_q := by
  have hs := pollCamera_settings env.polls d.mFd fuel 0 d
  have hn : needsConversion d = false := by
    simp [needsConversion, hfmt, hw, hh]
  unfold read getState
  generalize pollCamera env.polls d.mFd fuel 0 d = p at hpoll hs ⊢
  obtain ⟨d1, r1⟩ := p
  simp only at hpoll hs
  subst hpoll
  have hn1 : needsConversion (d1.log (Call.v4l2_buf_dq d1.mFd)) = false := by
    rw [needsConversion_congr d _ (by rw [log_settings, hs]), hn]
  have hf : d1.mWidth = d.mWidth ∧ d1.mHeight = d.mHeight ∧ d1.mPixelFormat = d.mPixelFormat ∧
      d1.mOutBuf = d.mOutBuf := by
    simp only [Device.settings, Prod.mk.injEq] at hs
    exact ⟨hs.2.1, hs.2.2.1, hs.2.2.2.1, hs.2.2.2.2.2.2.2.2⟩
  obtain ⟨f1, f2, f3, f4⟩ := hf
  simp only [hrun, ne_eq, not_true_eq_false, if_false, hdq, hptr, hn1, Bool.false_eq_true]
  by_cases hq : env.v4l2_buf_q = 0
  · simp [hq, Device.log, f1, f2, f3, f4]
  · simp [hq, Device.log, f1, f2, f3, f4]

/-- C16 on `runningDevice` (native 640x480 UYVY output) with the first poll ready: the frame
is a view of the dequeued buffer at address 4096 with stride 1280, and the buffer is
enqueued again. -/
theorem read_zero_copy_witness :
    (read sampleFormats (readOk (fun _ => pollReady)) 1 runningDevice blankFrame
        (fun _ => 0)).frame =
      { width := 640, height := 480, pixFmt := 4, stride := 1280,
        buf := BufRef.userptr 4096, bufSize := 614400 } ∧
    (read sampleFormats (readOk (fun _ => pollReady)) 1 runningDevice blankFrame
        (fun _ => 0)).device.mOutBuf = none ∧
    (read sampleFormats (readOk (fun _ => pollReady)) 1 runningDevice blankFrame
        (fun _ => 0)).device.calls =
      [Call.select 3, Call.v4l2_buf_dq 3, Call.v4l2_buf_q 3 0 4096 614400] ∧
    (read sampleFormats (readOk (fun _ => pollReady)) 1 runningDevice blankFrame
        (fun _ => 0)).ret = some 0 :=
  have h := read_zero_copy sampleFormats (readOk (fun _ => pollReady)) 1 runningDevice
    blankFrame (fun _ => 0) (by decide) (by decide) (by decide) (by decide) (by decide)
    (by decide) (by decide)
  ⟨h.1, h.2.2.2.1, h.2.2.2.2.1, h.2.2.2.2.2⟩


theorem allocLoop_ret_zero (env : AllocEnv) (len n i : Nat) (d : Device) :
    (allocLoop env len n i (d, 0)).2 = 0 := by
  induction n generalizing i d with
  | zero => rfl
  | succ n ih =>
    simp only [allocLoop]
    split_ifs
    · rfl
    · exact ih _ _

/-- With a positive count and a non-zero size `allocFrameBuffer` returns `0` as soon as the
allocation for slot 0 succeeds. -/
theorem allocFrameBuffer_ret_zero (env : AllocEnv) (d : Device) (cnt : Int) (size : Nat)
    (hc : 0 < cnt) (hs : size ≠ 0) (h0 : env.memalign 0 ≠ 0) :
    (allocFrameBuffer env d cnt size).2 = 0 := by
  have hc1 : ¬ (cnt = 0 ∨ size = 0) := by
    rintro (h | h)
    · omega
    · exact hs h
  obtain ⟨n, hn⟩ : ∃ n, cnt.toNat = n + 1 := ⟨cnt.toNat - 1, by omega⟩
  unfold allocFrameBuffer
  rw [if_neg hc1]
  generalize bufLen size env.getpagesize = len
  simp only [hn, allocLoop, h0, if_false]
  exact allocLoop_ret_zero _ _ _ _ _

/-- On an Idle device whose buffer count and frame size are non-zero, `init` returns `0`
when all its external calls succeed. -/
theorem init_ok (env : InitEnv) (d : Device) (hd : d.mState = STATE_IDLE)
    (hcnt : 0 < toInt32 d.mBufCnt) (hsz : d.mWidth * d.mHeight * 2 % 2 ^ 32 ≠ 0)
    (he : env.allOk) : (init env d).2 = 0 := by
  obtain ⟨e1, e2, e3, e4, e5, e6⟩ := he
  have e1' : ¬ env.v4l2_open < 0 := by omega
  unfold init initError getState
  dsimp only
  simp only [hd, ne_eq, not_true_eq_false, if_false, e1', e2, e3, e4, e5]
  have key : ∀ D : Device, D.mBufCnt = d.mBufCnt → D.mWidth = d.mWidth →
      D.mHeight = d.mHeight →
      (allocFrameBuffer env.alloc D (toInt32 D.mBufCnt) (D.mWidth * D.mHeight * 2 % 2 ^ 32)).2
        = 0 := by
    intro D h1 h2 h3
    rw [h1, h2, h3]
    exact allocFrameBuffer_ret_zero _ _ _ _ hcnt hsz (e6 0)
  split_ifs with h
  · rfl
  · refine absurd (key _ ?_ ?_ ?_) h <;> rfl


theorem enqueueLoop_ok (env : StartEnv) (n i : Nat) (d : Device)
    (h : ∀ j, env.v4l2_buf_q j = 0) : (enqueueLoop env n i d).2 = 0 := by
  induction n generalizing i d with
  | zero => rfl
  | succ n ih =>
    simp only [enqueueLoop, h, ne_eq, not_true_eq_false, if_false]
    exact ih _ _

/-- On an Initialized device `start` returns `0` when all its driver calls succeed. -/
theorem start_ok (env : StartEnv) (d : Device) (hd : d.mState = STATE_INIT)
    (he : env.allOk) : (start env d).2 = 0 := by
  obtain ⟨e1, e2, e3⟩ := he
  unfold start getState
  dsimp only
  simp only [hd, ne_eq, not_true_eq_false, if_false, e1, e3, enqueueLoop_ok env _ _ _ e2]

theorem initAllOk_allOk : initAllOk.allOk :=
  ⟨by decide, rfl, rfl, rfl, rfl, fun i => by
    show 4096 + i * 618496 ≠ 0
    omega⟩

theorem startAllOk_allOk : startAllOk.allOk := ⟨rfl, fun _ => rfl, rfl⟩

theorem allocOutBuf_calls (d : Device) (n : Nat) :
    (allocOutBuf d n).calls = d.calls ∧ (allocOutBuf d n).mFd = d.mFd ∧
    (allocOutBuf d n).mState = d.mState ∧
    (allocOutBuf d n).mPixelFormat = d.mPixelFormat := by
  unfold allocOutBuf
  cases d.mOutBuf <;> exact ⟨rfl, rfl, rfl, rfl⟩

/-- The `switch` of the conversion path touches neither the trace, the descriptor, the
state nor the native pixel format. -/
theorem readSwitch_calls (K : PixelFormats) (d : Device) (frame : CameraFrame) :
    (readSwitch K d frame).1.calls = d.calls ∧ (readSwitch K d frame).1.mFd = d.mFd ∧
    (readSwitch K d frame).1.mState = d.mState ∧
    (readSwitch K d frame).1.mPixelFormat = d.mPixelFormat := by
  unfold readSwitch
  split_ifs
  · exact allocOutBuf_calls _ _
  · exact allocOutBuf_calls _ _
  · exact ⟨rfl, rfl, rfl, rfl⟩

theorem pollCamera_ready_step (polls : Nat → PollEnv) (fd : Int) (fuel n : Nat) (d : Device)
    (hd : d.mState = STATE_RUN) (h1 : (polls n).select ≠ -1) (h0 : (polls n).select ≠ 0) :
    pollCamera polls fd (fuel + 1) n d = (d.log (Call.select fd), some 0) := by
  rw [pollCamera]
  dsimp only
  rw [if_pos hd, if_neg h1, if_neg h0]

/-- The conversion path to 8-bit monochrome: on a Running device whose output format is
GREY and differs from the native format, with the first poll ready, a successful dequeue of
a non-null buffer, `read` fills the frame with the output width, height and format, stride
equal to the output width, byte size `mOutWidth * mOutHeight` and the scratch buffer as
buffer, and returns the result of the final enqueue. -/
theorem read_conversion_grey (K : PixelFormats) (env : ReadEnv) (fuel : Nat) (d : Device)
    (frame : CameraFrame) (scratch : Nat → Nat)
    (hd : d.mState = STATE_RUN) (hout : d.mOutPixelFormat = K.PIXEL_FORMAT_GREY)
    (hnat : d.mPixelFormat ≠ K.PIXEL_FORMAT_GREY)
    (h1 : (env.polls 0).select ≠ -1) (h0 : (env.polls 0).select ≠ 0)
    (hdq : env.v4l2_buf_dq = 0) (hptr : env.userptr ≠ 0) :
    (read K env (fuel + 1) d frame scratch).frame =
      { width := d.mOutWidth, height := d.mOutHeight, pixFmt := K.PIXEL_FORMAT_GREY,
        stride := d.mOutWidth, buf := BufRef.scratch,
        bufSize := d.mOutWidth * d.mOutHeight % 2 ^ 32 } ∧
    (read K env (fuel + 1) d frame scratch).ret = some env.v4l2_buf_q := by
  have hp := pollCamera_ready_step env.polls d.mFd fuel 0 d hd h1 h0
  have hconv : needsConversion (d.log (Call.select d.mFd)) = true := by
    simp [needsConversion, Device.log, hout, Ne.symm hnat]
  have hconv2 : needsConversion ((d.log (Call.select d.mFd)).log (Call.v4l2_buf_dq d.mFd))
      = true := hconv
  unfold read getState
  rw [hp]
  simp only [hd, ne_eq, not_true_eq_false, if_false, hdq, hptr]
  have hfd : (d.log (Call.select d.mFd)).mFd = d.mFd := rfl
  rw [hfd, hconv2]
  cases hob : d.mOutBuf <;>
    by_cases hq : env.v4l2_buf_q = 0 <;>
    simp [readSwitch, allocOutBuf, Device.log, hout, hob, hq]

/-- C12: from a freshly constructed device, when GREY is an enumerator strictly between
`PIXEL_FORMAT_MIN` and `PIXEL_FORMAT_MAX` and distinct from UYVY, every driver call and
allocation succeeds and the first poll reports ready, the sequence `init`,
`setPixelFormat(GREY)`, `start`, `read` returns success four times, and the frame has pixel
format GREY, width and height equal to the configured output size (which is 640x480),
stride equal to the output width and byte size width times height. -/
theorem end_to_end_mono8 (K : PixelFormats) (dev : String) (ei : InitEnv) (es : StartEnv)
    (er : ReadEnv) (fuel : Nat) (frame : CameraFrame) (scratch : Nat → Nat)
    (hK1 : K.PIXEL_FORMAT_MIN < K.PIXEL_FORMAT_GREY)
    (hK2 : K.PIXEL_FORMAT_GREY < K.PIXEL_FORMAT_MAX)
    (hK3 : K.PIXEL_FORMAT_GREY ≠ K.PIXEL_FORMAT_UYVY)
    (hi : ei.allOk) (hs : es.allOk) (hready : 0 < (er.polls 0).select)
    (hdq : er.v4l2_buf_dq = 0) (hptr : er.userptr ≠ 0) (hq : er.v4l2_buf_q = 0) :
    (init ei (new K dev)).2 = 0 ∧
    (setPixelFormat K (init ei (new K dev)).1 K.PIXEL_FORMAT_GREY).2 = 0 ∧
    (start es (setPixelFormat K (init ei (new K dev)).1 K.PIXEL_FORMAT_GREY).1).2 = 0 ∧
    (read K er (fuel + 1)
      (start es (setPixelFormat K (init ei (new K dev)).1 K.PIXEL_FORMAT_GREY).1).1
      frame scratch).ret = some 0 ∧
    (getSize (start es (setPixelFormat K (init ei (new K dev)).1 K.PIXEL_FORMAT_GREY).1).1).1
      = (640, 480) ∧
    (read K er (fuel + 1)
      (start es (setPixelFormat K (init ei (new K dev)).1 K.PIXEL_FORMAT_GREY).1).1
      frame scratch).frame =
      { width := 640, height := 480, pixFmt := K.PIXEL_FORMAT_GREY, stride := 640,
        buf := BufRef.scratch, bufSize := 640 * 480 } := by
  have hcnt : 0 < toInt32 (new K dev).mBufCnt := by
    show 0 < toInt32 4
    decide
  have hsz : (new K dev).mWidth * (new K dev).mHeight * 2 % 2 ^ 32 ≠ 0 := by
    show 640 * 480 * 2 % 2 ^ 32 ≠ 0
    decide
  have h1 : (init ei (new K dev)).2 = 0 := init_ok ei (new K dev) rfl hcnt hsz hi
  have hst1 : (init ei (new K dev)).1.mState = STATE_INIT := by
    rcases init_cases ei (new K dev) with h | h
    · exact absurd h1 h.1
    · exact h.2.2
  have hset1 := init_settings ei (new K dev)
  refine ⟨h1, ?_⟩
  generalize (init ei (new K dev)).1 = d1 at hst1 hset1 ⊢
  have hrange : ¬ (K.PIXEL_FORMAT_GREY ≤ K.PIXEL_FORMAT_MIN ∨
      K.PIXEL_FORMAT_GREY ≥ K.PIXEL_FORMAT_MAX) := by omega
  have h2 : setPixelFormat K d1 K.PIXEL_FORMAT_GREY
      = ({ d1 with mOutPixelFormat := K.PIXEL_FORMAT_GREY }, 0) := by
    simp [setPixelFormat, getState, hrange, hst1]
  rw [h2]
  have hst2 : ({ d1 with mOutPixelFormat := K.PIXEL_FORMAT_GREY } : Device).mState
      = STATE_INIT := hst1
  have h3 := start_ok es { d1 with mOutPixelFormat := K.PIXEL_FORMAT_GREY } hst2 hs
  have hst3 : (start es { d1 with mOutPixelFormat := K.PIXEL_FORMAT_GREY }).1.mState
      = STATE_RUN := by
    rcases start_cases es { d1 with mOutPixelFormat := K.PIXEL_FORMAT_GREY } with h | h
    · exact absurd h3 h.1
    · exact h.2.2
  have hset3 := start_settings es { d1 with mOutPixelFormat := K.PIXEL_FORMAT_GREY }
  refine ⟨rfl, h3, ?_⟩
  generalize (start es { d1 with mOutPixelFormat := K.PIXEL_FORMAT_GREY }).1 = d3
    at hst3 hset3 ⊢
  simp only [Device.settings, Prod.mk.injEq, new, DEFAULT_WIDTH, DEFAULT_HEIGHT] at hset1 hset3
  obtain ⟨_, a2, a3, a4, a5, a6, _, _, _⟩ := hset1
  obtain ⟨_, b2, b3, b4, b5, b6, b7, _, _⟩ := hset3
  have hp1 : (er.polls 0).select ≠ -1 := by omega
  have hp0 : (er.polls 0).select ≠ 0 := by omega
  obtain ⟨f1, f2⟩ := read_conversion_grey K er fuel d3 frame scratch hst3 b7
    (by rw [b4, a4]; exact Ne.symm hK3) hp1 hp0 hdq hptr
  rw [f1, f2, hq, b5, b6, a5, a6]
  exact ⟨rfl, by simp [getSize, b5, b6, a5, a6], rfl⟩

/-- C12 with the sample enumerator values, descriptor 3 and 4096-byte pages. -/
theorem end_to_end_mono8_witness :
    (init initAllOk (new sampleFormats "/dev/video2")).2 = 0 ∧
    (setPixelFormat sampleFormats (init initAllOk (new sampleFormats "/dev/video2")).1
      sampleFormats.PIXEL_FORMAT_GREY).2 = 0 ∧
    (start startAllOk (setPixelFormat sampleFormats
      (init initAllOk (new sampleFormats "/dev/video2")).1
      sampleFormats.PIXEL_FORMAT_GREY).1).2 = 0 ∧
    (read sampleFormats (readOk (fun _ => pollReady)) (0 + 1)
      (start startAllOk (setPixelFormat sampleFormats
        (init initAllOk (new sampleFormats "/dev/video2")).1
        sampleFormats.PIXEL_FORMAT_GREY).1).1
      blankFrame (fun _ => 0)).ret = some 0 ∧
    (getSize (start startAllOk (setPixelFormat sampleFormats
      (init initAllOk (new sampleFormats "/dev/video2")).1
      sampleFormats.PIXEL_FORMAT_GREY).1).1).1 = (640, 480) ∧
    (read sampleFormats (readOk (fun _ => pollReady)) (0 + 1)
      (start startAllOk (setPixelFormat sampleFormats
        (init initAllOk (new sampleFormats "/dev/video2")).1
        sampleFormats.PIXEL_FORMAT_GREY).1).1
      blankFrame (fun _ => 0)).frame =
      { width := 640, height := 480, pixFmt := sampleFormats.PIXEL_FORMAT_GREY, stride := 640,
        buf := BufRef.scratch, bufSize := 640 * 480 } :=
  end_to_end_mono8 sampleFormats "/dev/video2" initAllOk startAllOk
    (readOk (fun _ => pollReady)) 0 blankFrame (fun _ => 0) (by decide) (by decide) (by decide)
    initAllOk_allOk startAllOk_allOk (by decide) rfl (by decide) rfl


/-- Whatever path `read` takes, it leaves the native pixel format alone and does not put
the device in state Error. -/
theorem read_preserves (K : PixelFormats) (env : ReadEnv) (fuel : Nat) (d : Device)
    (frame : CameraFrame) (scratch : Nat → Nat) :
    (read K env fuel d frame scratch).device.mPixelFormat = d.mPixelFormat ∧
    (d.mState ≠ STATE_ERROR → (read K env fuel d frame scratch).device.mState ≠ STATE_ERROR) := by
  have hs := pollCamera_settings env.polls d.mFd fuel 0 d
  have he := pollCamera_ne_error env.polls d.mFd fuel 0 d
  unfold read getState
  generalize pollCamera env.polls d.mFd fuel 0 d = p at hs he ⊢
  obtain ⟨d1, r1⟩ := p
  simp only at hs he
  have hpf : d1.mPixelFormat = d.mPixelFormat := by
    simp only [Device.settings, Prod.mk.injEq] at hs
    exact hs.2.2.2.1
  have hsw := readSwitch_calls K (d1.log (Call.v4l2_buf_dq d1.mFd)) frame
  by_cases h0 : d.mState ≠ STATE_RUN
  · rw [if_pos h0]
    exact ⟨rfl, fun h => h⟩
  · rw [if_neg h0]
    cases r1 with
    | none => exact ⟨hpf, he⟩
    | some r =>
      dsimp only
      split_ifs
      all_goals first
        | exact ⟨hpf, he⟩
        | exact ⟨hsw.2.2.2.trans hpf, fun h hc => he h (hsw.2.2.1.symm.trans hc)⟩


theorem settings_mPixelFormat (d e : Device) (h : e.settings = d.settings) :
    e.mPixelFormat = d.mPixelFormat := by
  simp only [Device.settings, Prod.mk.injEq] at h
  exact h.2.2.2.1

theorem setSize_preserves (d : Device) (w h : Nat) :
    (setSize d w h).1.mPixelFormat = d.mPixelFormat ∧ (setSize d w h).1.mState = d.mState := by
  unfold setSize
  split_ifs <;> exact ⟨rfl, rfl⟩

theorem setPixelFormat_preserves (K : PixelFormats) (d : Device) (f : Int) :
    (setPixelFormat K d f).1.mPixelFormat = d.mPixelFormat ∧
    (setPixelFormat K d f).1.mState = d.mState := by
  unfold setPixelFormat
  split_ifs <;> exact ⟨rfl, rfl⟩

/-- No public operation changes the native pixel format. -/
theorem step_mPixelFormat (K : PixelFormats) (d : Device) (op : Op) :
    (step K d op).1.mPixelFormat = d.mPixelFormat := by
  cases op with
  | init env => exact settings_mPixelFormat _ _ (init_settings env d)
  | uninit => exact settings_mPixelFormat _ _ (uninit_settings d)
  | start env => exact settings_mPixelFormat _ _ (start_settings env d)
  | stop => exact settings_mPixelFormat _ _ (stop_settings d)
  | read env fuel => exact (read_preserves K env fuel d _ _).1
  | setSize w h => exact (setSize_preserves d w h).1
  | setPixelFormat f => exact (setPixelFormat_preserves K d f).1

/-- No public operation takes a device that is not in state Error into state Error. -/
theorem step_ne_error (K : PixelFormats) (d : Device) (op : Op) (hd : d.mState ≠ STATE_ERROR) :
    (step K d op).1.mState ≠ STATE_ERROR := by
  cases op with
  | init env =>
    show (init env d).1.mState ≠ STATE_ERROR
    rcases init_cases env d with h | h
    · rw [h.2]; exact hd
    · rw [h.2.2]; decide
  | uninit =>
    show (uninit d).1.mState ≠ STATE_ERROR
    rw [uninit_mState]
    split_ifs
    · decide
    · exact hd
  | start env =>
    show (start env d).1.mState ≠ STATE_ERROR
    rcases start_cases env d with h | h
    · rw [h.2]; exact hd
    · rw [h.2.2]; decide
  | stop =>
    show (stop d).1.mState ≠ STATE_ERROR
    rcases stop_cases d with h | h
    · rw [h.2.2]; decide
    · rw [h.2]; exact hd
  | read env fuel => exact (read_preserves K env fuel d _ _).2 hd
  | setSize w h =>
    show (setSize d w h).1.mState ≠ STATE_ERROR
    rw [(setSize_preserves d w h).2]; exact hd
  | setPixelFormat f =>
    show (setPixelFormat K d f).1.mState ≠ STATE_ERROR
    rw [(setPixelFormat_preserves K d f).2]; exact hd

theorem run_mPixelFormat (K : PixelFormats) (d : Device) (ops : List Op) :
    (run K d ops).mPixelFormat = d.mPixelFormat := by
  induction ops generalizing d with
  | nil => rfl
  | cons op ops ih =>
    simp only [run]
    split_ifs
    · rw [ih, step_mPixelFormat]
    · exact step_mPixelFormat K d op

theorem run_ne_error (K : PixelFormats) (d : Device) (ops : List Op)
    (hd : d.mState ≠ STATE_ERROR) : (run K d ops).mState ≠ STATE_ERROR := by
  induction ops generalizing d with
  | nil => exact hd
  | cons op ops ih =>
    simp only [run]
    split_ifs
    · exact ih _ (step_ne_error K d op hd)
    · exact step_ne_error K d op hd

/-- C20: starting from a freshly constructed device, after any finite sequence of `init`,
`uninit`, `start`, `stop`, `read`, `setSize` and `setPixelFormat` calls, whatever the
outcomes of the driver and allocator calls and however many iterations each poll loop is
given, the state is not Error: it is Idle, Initialized or Running. -/
theorem run_never_error (K : PixelFormats) (dev : String) (ops : List Op) :
    (run K (new K dev) ops).mState ≠ STATE_ERROR ∧
    ((run K (new K dev) ops).mState = STATE_IDLE ∨
     (run K (new K dev) ops).mState = STATE_INIT ∨
     (run K (new K dev) ops).mState = STATE_RUN) := by
  have h0 : (new K dev).mState ≠ STATE_ERROR := by
    show STATE_IDLE ≠ STATE_ERROR
    decide
  have h := run_ne_error K (new K dev) ops h0
  refine ⟨h, ?_⟩
  cases hs : (run K (new K dev) ops).mState
  · exact absurd hs h
  · exact Or.inl rfl
  · exact Or.inr (Or.inl rfl)
  · exact Or.inr (Or.inr rfl)


/-- C19: `getPixelFormat` reports the native capture format, which the constructor sets to
UYVY, and never the output format.  After `setPixelFormat(f)` it returns what it returned
before; when `f` was accepted and differs from the native format (a value representable in
the `uint32_t` result), the output format is `f` while the reported value is the native
one and not `f`; and after any sequence of public operations it still returns the same
value. -/
theorem getPixelFormat_reports_native (K : PixelFormats) (dev : String) (d : Device) (f : Int)
    (ops : List Op) :
    getPixelFormat (new K dev) = ((K.PIXEL_FORMAT_UYVY % 2 ^ 32).toNat, 0) ∧
    getPixelFormat (setPixelFormat K d f).1 = getPixelFormat d ∧
    ((setPixelFormat K d f).2 = 0 → f ≠ d.mPixelFormat →
      0 ≤ d.mPixelFormat → d.mPixelFormat < 2 ^ 32 →
      (setPixelFormat K d f).1.mOutPixelFormat = f ∧
      ((getPixelFormat (setPixelFormat K d f).1).1 : Int) = d.mPixelFormat ∧
      ((getPixelFormat (setPixelFormat K d f).1).1 : Int) ≠ f) ∧
    getPixelFormat (run K d ops) = getPixelFormat d := by
  refine ⟨rfl, ?_, ?_, ?_⟩
  · unfold getPixelFormat
    rw [(setPixelFormat_preserves K d f).1]
  · intro hacc hne h0 h1
    have hval : ((getPixelFormat (setPixelFormat K d f).1).1 : Int) = d.mPixelFormat := by
      unfold getPixelFormat
      rw [(setPixelFormat_preserves K d f).1]
      dsimp only
      rw [Int.emod_eq_of_lt h0 h1, Int.toNat_of_nonneg h0]
    refine ⟨?_, hval, ?_⟩
    · unfold setPixelFormat at hacc ⊢
      split_ifs at hacc ⊢
      · exact absurd hacc (show (1 : Int) ≠ 0 by decide)
      · exact absurd hacc (show (1 : Int) ≠ 0 by decide)
      · rfl
    · rw [hval]
      exact fun h => hne h.symm
  · unfold getPixelFormat
    rw [run_mPixelFormat]

/-- C19 on an Initialized device: after `setPixelFormat(GREY)` is accepted the output
format is GREY (1) while `getPixelFormat` still reports UYVY (4). -/
theorem getPixelFormat_reports_native_witness :
    (setPixelFormat sampleFormats initializedDevice 1).1.mOutPixelFormat = 1 ∧
    ((getPixelFormat (setPixelFormat sampleFormats initializedDevice 1).1).1 : Int)
      = initializedDevice.mPixelFormat ∧
    ((getPixelFormat (setPixelFormat sampleFormats initializedDevice 1).1).1 : Int) ≠ 1 ∧
    getPixelFormat (setPixelFormat sampleFormats initializedDevice 1).1 = (4, 0) :=
  have h := (getPixelFormat_reports_native sampleFormats "/dev/video2" initializedDevice 1
    []).2.2.1 (by decide) (by decide) (by decide) (by decide)
  ⟨h.1, h.2.1, h.2.2, by decide⟩


/-! ## Transform bounds: theorems -/

/-- For every format pair other than native UYVY to output GREY, `transform` leaves the
destination bytes as they were. -/
theorem transform_other_pair (K : PixelFormats) (d : Device) (input : Int → Nat)
    (output : Nat → Nat)
    (h : ¬ (d.mPixelFormat = K.PIXEL_FORMAT_UYVY ∧ d.mOutPixelFormat = K.PIXEL_FORMAT_GREY)) :
    transform K d input output = output := by
  unfold transform
  rw [if_neg h]

/-- C11: on a Running device with native format UYVY, output format UYVY and output size
320x240 (set while Initialized), with the poll ready and the dequeue and enqueue succeeding,
`read` takes the conversion path and returns `0` with a 320x240 UYVY frame over the scratch
buffer, of which no byte has been written (every byte still holds the value 170 it had
before the call).  With an output format that is neither GREY nor UYVY (enumerator 2) it
returns `0` with a null buffer. -/
theorem read_unsupported_pair_returns_success :
    (start startAllOk (setSize initializedDevice 320 240).1).1.mState = STATE_RUN ∧
    needsConversion (start startAllOk (setSize initializedDevice 320 240).1).1 = true ∧
    (read sampleFormats (readOk (fun _ => pollReady)) 1
      (start startAllOk (setSize initializedDevice 320 240).1).1 blankFrame
      (fun _ => 170)).ret = some 0 ∧
    (read sampleFormats (readOk (fun _ => pollReady)) 1
      (start startAllOk (setSize initializedDevice 320 240).1).1 blankFrame
      (fun _ => 170)).frame =
      { width := 320, height := 240, pixFmt := sampleFormats.PIXEL_FORMAT_UYVY, stride := 640,
        buf := BufRef.scratch, bufSize := 153600 } ∧
    (∀ p, (read sampleFormats (readOk (fun _ => pollReady)) 1
      (start startAllOk (setSize initializedDevice 320 240).1).1 blankFrame
      (fun _ => 170)).scratch p = 170) ∧
    (read sampleFormats (readOk (fun _ => pollReady)) 1
      (start startAllOk (setPixelFormat sampleFormats initializedDevice 2).1).1 blankFrame
      (fun _ => 170)).ret = some 0 ∧
    (read sampleFormats (readOk (fun _ => pollReady)) 1
      (start startAllOk (setPixelFormat sampleFormats initializedDevice 2).1).1 blankFrame
      (fun _ => 170)).frame.buf = BufRef.null := by
  refine ⟨by decide, by decide, by decide, by decide, fun p => rfl, by decide, by decide⟩


/-- C15: after `init`, `setPixelFormat(GREY)`, `setSize(2, 2)`, `start`, `read`, `stop`,
`setSize(4, 2)`, `start` the device is Running with output 4x2 GREY, so the next `read`
takes the conversion path and needs 8 scratch bytes, but the scratch buffer is still the
4-byte one allocated by the first `read`.  That next `read` returns `0` with a frame of
byte size 8, does not reallocate, and the transform stores beyond the buffer: the bytes at
indices 4 to 7, which held 0, now hold the source value 200. -/
theorem scratch_buffer_not_resized :
    (run sampleFormats (new sampleFormats "/dev/video2") resizeBetweenReads).mState
      = STATE_RUN ∧
    needsConversion (run sampleFormats (new sampleFormats "/dev/video2") resizeBetweenReads)
      = true ∧
    scratchRequired sampleFormats
      (run sampleFormats (new sampleFormats "/dev/video2") resizeBetweenReads) = 8 ∧
    (run sampleFormats (new sampleFormats "/dev/video2") resizeBetweenReads).mOutBuf
      = some 4 ∧
    (read sampleFormats readConstant 1
      (run sampleFormats (new sampleFormats "/dev/video2") resizeBetweenReads)
      blankFrame (fun _ => 0)).ret = some 0 ∧
    (read sampleFormats readConstant 1
      (run sampleFormats (new sampleFormats "/dev/video2") resizeBetweenReads)
      blankFrame (fun _ => 0)).frame.bufSize = 8 ∧
    (read sampleFormats readConstant 1
      (run sampleFormats (new sampleFormats "/dev/video2") resizeBetweenReads)
      blankFrame (fun _ => 0)).device.mOutBuf = some 4 ∧
    (List.range 9).map (read sampleFormats readConstant 1
      (run sampleFormats (new sampleFormats "/dev/video2") resizeBetweenReads)
      blankFrame (fun _ => 0)).scratch = [200, 200, 200, 200, 200, 200, 200, 200, 0] := by
  refine ⟨by decide, by decide, by decide, by decide, by decide, by decide, by decide,
    by decide⟩

end CameraDeviceAtomIsp
